import Mathlib

set_option maxHeartbeats 1000000

/-!
Verification of the RoamIQ repository (Next.js travel-itinerary app).

Source files embedded here:
* `app/components/HotelSuggestions.jsx` — the hotel-card view component;
* `app/api/itinerary/route.js` — the `POST` API route: an Antarctica guard
  rail, parallel third-party data fetches (TomTom geocoding/routing and
  SerpApi search), a calendar-day computation, a large LLM prompt, and a
  re-framing of the Groq server-sent-events stream into a plain stream.

Modelling conventions (shallow embedding):
* JavaScript strings are modelled as `List Char` where character-level
  buffering matters (the SSE re-framing, the prompt) and as `String`
  elsewhere; `TextDecoder` byte decoding is abstracted away, so upstream
  chunks are character sequences.
* Fallible external calls (`fetch`, SerpApi `getJson`) are modelled by
  environment records whose fields give each call's outcome; a rejected
  promise / thrown error is the `Fetched.err` constructor.
* `JSON.parse` of a streaming delta plus the `choices?.[0]?.delta?.content
  || ''` extraction is abstracted as a function `List Char → Option (List
  Char)` (`none` = the payload does not parse as JSON, `some d` = it parses
  and the extracted content is `d`, possibly empty).
* Floating-point arithmetic (the Haversine formula) is abstracted to the
  rounded integer result it produces; dates are civil Gregorian dates at
  day granularity, which is the granularity at which the route manipulates
  them.
-/

/-! ## C1 — re-framing the Groq SSE stream (route.js, `POST`, ReadableStream)

The route reads upstream chunks, appends them to a buffer, splits the
buffer on `'\n'`, keeps the trailing incomplete piece buffered, and for
every complete line starting with `"data: "` either closes on `"[DONE]"`
or enqueues the parsed non-empty delta. -/

/-- Characters of the SSE line marker `"data: "` checked by
`line.startsWith('data: ')`; its length 6 matches `line.slice(6)`. -/
def dataTag : List Char := "data: ".data

/-- Characters of the terminal SSE payload `"[DONE]"`. -/
def doneTok : List Char := "[DONE]".data

/-- Splitting on `'\n'`, JavaScript style: `buffer.split('\n')` followed by
`buffer = lines.pop() || ''`.  The first component is the complete lines,
the second the trailing piece after the last newline. -/
def splitLines : List Char → List (List Char) × List Char
  | [] => ([], [])
  | c :: cs =>
    if c = '\n' then ([] :: (splitLines cs).1, (splitLines cs).2)
    else
      match (splitLines cs).1 with
      | [] => ([], c :: (splitLines cs).2)
      | l :: ls => ((c :: l) :: ls, (splitLines cs).2)

/-- State of the `ReadableStream` `start` loop: the carry-over `buffer`,
the chunks enqueued so far (in order), and whether `controller.close()`
(or the early `return` on `[DONE]`) has happened. -/
structure SState where
  buffer : List Char
  output : List (List Char)
  closed : Bool

/-- Processing of one complete line inside the `for (const line of lines)`
loop: lines not starting with `"data: "` are ignored, `"[DONE]"` closes the
stream and stops all further processing, a payload that parses with a
non-empty extracted delta is enqueued, everything else is skipped. -/
def processLine (parse : List Char → Option (List Char)) (s : SState)
    (line : List Char) : SState :=
  if s.closed then s
  else if dataTag.isPrefixOf line then
    let data := line.drop 6
    if data = doneTok then { s with closed := true }
    else
      match parse data with
      | none => s
      | some delta => if delta = [] then s else { s with output := s.output ++ [delta] }
  else s

/-- Processing of one upstream chunk: append to the buffer, split on
newlines, keep the last (incomplete) piece as the new buffer, process the
complete lines in order.  After the stream closed, nothing happens. -/
def processChunk (parse : List Char → Option (List Char)) (s : SState)
    (chunk : List Char) : SState :=
  if s.closed then s
  else
    let parts := splitLines (s.buffer ++ chunk)
    List.foldl (processLine parse)
      { buffer := parts.2, output := s.output, closed := false } parts.1

/-- The whole `ReadableStream` loop over the sequence of upstream chunks,
starting from an empty buffer. -/
def runStream (parse : List Char → Option (List Char))
    (chunks : List (List Char)) : SState :=
  List.foldl (processChunk parse) ⟨[], [], false⟩ chunks

/-- A complete line that terminates the stream: `"data: [DONE]"`. -/
def isDoneLine (l : List Char) : Bool :=
  dataTag.isPrefixOf l && l.drop 6 == doneTok

/-- The delta a single complete line contributes, per the claim: lines of
the form `data: <json>` whose payload parses and carries a non-empty
`choices[0].delta.content`. -/
def extractDelta (parse : List Char → Option (List Char))
    (l : List Char) : Option (List Char) :=
  if dataTag.isPrefixOf l then
    match parse (l.drop 6) with
    | some d => if d = [] then none else some d
    | none => none
  else none

/-- The claim's specification of what gets emitted: the in-order deltas of
the complete lines strictly before the first `data: [DONE]` line. -/
def specDeltas (parse : List Char → Option (List Char))
    (lines : List (List Char)) : List (List Char) :=
  (lines.takeWhile (fun l => !(isDoneLine l))).filterMap (extractDelta parse)

/-! Supporting lemmas for C1. -/

theorem splitLines_cons_newline (cs : List Char) :
    splitLines ('\n' :: cs) = ([] :: (splitLines cs).1, (splitLines cs).2) := by
  simp [splitLines]

theorem splitLines_cons_of_fst_nil (c : Char) (cs : List Char) (hc : c ≠ '\n')
    (h : (splitLines cs).1 = []) :
    splitLines (c :: cs) = ([], c :: (splitLines cs).2) := by
  simp [splitLines, hc, h]

theorem splitLines_cons_of_fst_cons (c : Char) (cs : List Char) (l : List Char)
    (ls : List (List Char)) (hc : c ≠ '\n') (h : (splitLines cs).1 = l :: ls) :
    splitLines (c :: cs) = ((c :: l) :: ls, (splitLines cs).2) := by
  simp [splitLines, hc, h]

theorem splitLines_append (a b : List Char) :
    splitLines (a ++ b) =
      ((splitLines a).1 ++ (splitLines ((splitLines a).2 ++ b)).1,
       (splitLines ((splitLines a).2 ++ b)).2) := by
  induction a with
  | nil => simp [splitLines]
  | cons c cs ih =>
    by_cases hc : c = '\n'
    · subst hc
      rw [List.cons_append, splitLines_cons_newline, ih, splitLines_cons_newline]
      simp
    · cases h1 : (splitLines cs).1 with
      | nil =>
        have hsnd : (splitLines (cs ++ b)).2 =
            (splitLines ((splitLines cs).2 ++ b)).2 := by rw [ih]
        rw [splitLines_cons_of_fst_nil c cs hc h1]
        simp only [List.nil_append]
        cases h2 : (splitLines ((splitLines cs).2 ++ b)).1 with
        | nil =>
          have hfst : (splitLines (cs ++ b)).1 = [] := by
            rw [ih, h1, h2]; rfl
          rw [List.cons_append, splitLines_cons_of_fst_nil c (cs ++ b) hc hfst,
            hsnd, List.cons_append,
            splitLines_cons_of_fst_nil c ((splitLines cs).2 ++ b) hc h2]
        | cons m ms =>
          have hfst : (splitLines (cs ++ b)).1 = m :: ms := by
            rw [ih, h1, h2]; rfl
          rw [List.cons_append, splitLines_cons_of_fst_cons c (cs ++ b) m ms hc hfst,
            hsnd, List.cons_append,
            splitLines_cons_of_fst_cons c ((splitLines cs).2 ++ b) m ms hc h2]
      | cons l ls =>
        have hfst : (splitLines (cs ++ b)).1 =
            l :: (ls ++ (splitLines ((splitLines cs).2 ++ b)).1) := by
          rw [ih, h1]; rfl
        rw [List.cons_append, splitLines_cons_of_fst_cons c (cs ++ b) _ _ hc hfst,
          splitLines_cons_of_fst_cons c cs l ls hc h1, ih]
        simp

theorem splitLines_snd_no_newline (a : List Char) :
    ∀ c ∈ (splitLines a).2, c ≠ '\n' := by
  induction a with
  | nil => intro c hc; simp [splitLines] at hc
  | cons x xs ih =>
    by_cases hx : x = '\n'
    · subst hx
      rw [splitLines_cons_newline]
      exact ih
    · cases h1 : (splitLines xs).1 with
      | nil =>
        rw [splitLines_cons_of_fst_nil x xs hx h1]
        intro c hc
        rcases List.mem_cons.mp hc with h | h
        · exact h ▸ hx
        · exact ih c h
      | cons l ls =>
        rw [splitLines_cons_of_fst_cons x xs l ls hx h1]
        exact ih

theorem splitLines_no_newline (a : List Char) (h : ∀ c ∈ a, c ≠ '\n') :
    splitLines a = ([], a) := by
  induction a with
  | nil => rfl
  | cons x xs ih =>
    have hx : x ≠ '\n' := h x (List.mem_cons_self x xs)
    have hxs := ih (fun c hc => h c (List.mem_cons_of_mem x hc))
    simp [splitLines, hx, hxs]

/-- The output/closed dynamics of `processLine`, with the (untouched)
buffer projected away. -/
def stepLC (parse : List Char → Option (List Char))
    (p : List (List Char) × Bool) (line : List Char) :
    List (List Char) × Bool :=
  if p.2 then p
  else if dataTag.isPrefixOf line then
    let data := line.drop 6
    if data = doneTok then (p.1, true)
    else
      match parse data with
      | none => p
      | some delta => if delta = [] then p else (p.1 ++ [delta], p.2)
  else p

theorem processLine_view (parse : List Char → Option (List Char))
    (s : SState) (l : List Char) :
    ((processLine parse s l).output, (processLine parse s l).closed) =
      stepLC parse (s.output, s.closed) l := by
  unfold processLine stepLC
  by_cases hcl : s.closed = true
  · simp [hcl]
  · by_cases hp : dataTag.isPrefixOf l
    · by_cases hd : l.drop 6 = doneTok
      · simp [hcl, hp, hd]
      · cases hpar : parse (l.drop 6) with
        | none => simp [hcl, hp, hd, hpar]
        | some delta =>
          by_cases hdel : delta = []
          · simp [hcl, hp, hd, hpar, hdel]
          · simp [hcl, hp, hd, hpar, hdel]
    · simp [hcl, hp]

theorem processLine_buffer (parse : List Char → Option (List Char))
    (s : SState) (l : List Char) :
    (processLine parse s l).buffer = s.buffer := by
  unfold processLine
  by_cases hcl : s.closed = true
  · simp [hcl]
  · by_cases hp : dataTag.isPrefixOf l
    · by_cases hd : l.drop 6 = doneTok
      · simp [hcl, hp, hd]
      · cases hpar : parse (l.drop 6) with
        | none => simp [hcl, hp, hd, hpar]
        | some delta =>
          by_cases hdel : delta = []
          · simp [hcl, hp, hd, hpar, hdel]
          · simp [hcl, hp, hd, hpar, hdel]
    · simp [hcl, hp]

theorem foldl_processLine_buffer (parse : List Char → Option (List Char))
    (lines : List (List Char)) (s : SState) :
    (List.foldl (processLine parse) s lines).buffer = s.buffer := by
  induction lines generalizing s with
  | nil => rfl
  | cons l ls ih => rw [List.foldl_cons, ih, processLine_buffer]

theorem foldl_processLine_view (parse : List Char → Option (List Char))
    (lines : List (List Char)) (s : SState) :
    ((List.foldl (processLine parse) s lines).output,
      (List.foldl (processLine parse) s lines).closed) =
      List.foldl (stepLC parse) (s.output, s.closed) lines := by
  induction lines generalizing s with
  | nil => rfl
  | cons l ls ih => rw [List.foldl_cons, ih, processLine_view, List.foldl_cons]

theorem foldl_stepLC_closed (parse : List Char → Option (List Char))
    (lines : List (List Char)) (o : List (List Char)) :
    List.foldl (stepLC parse) (o, true) lines = (o, true) := by
  induction lines with
  | nil => rfl
  | cons l ls ih => rw [List.foldl_cons]; exact ih

/-- The `stepLC` fold over complete lines computes exactly the claim's
emission spec, and ends closed exactly when a `data: [DONE]` line occurs. -/
theorem foldl_stepLC_spec (parse : List Char → Option (List Char))
    (lines : List (List Char)) (o : List (List Char)) :
    List.foldl (stepLC parse) (o, false) lines =
      (o ++ specDeltas parse lines, lines.any isDoneLine) := by
  induction lines generalizing o with
  | nil => simp [specDeltas]
  | cons l ls ih =>
    by_cases hp : dataTag.isPrefixOf l
    · by_cases hd : l.drop 6 = doneTok
      · have hdone : isDoneLine l = true := by
          simp [isDoneLine, hp, hd]
        rw [List.foldl_cons]
        have hstep : stepLC parse (o, false) l = (o, true) := by
          simp [stepLC, hp, hd]
        rw [hstep, foldl_stepLC_closed]
        simp [specDeltas, hdone]
      · have hdone : isDoneLine l = false := by
          simp [isDoneLine, hd]
        have hspec : specDeltas parse (l :: ls) =
            (extractDelta parse l).toList ++ specDeltas parse ls := by
          simp [specDeltas, hdone, List.filterMap_cons]
          cases hx : extractDelta parse l <;> simp [hx]
        cases hpar : parse (l.drop 6) with
        | none =>
          have hstep : stepLC parse (o, false) l = (o, false) := by
            simp [stepLC, hp, hd, hpar]
          have hex : extractDelta parse l = none := by
            simp [extractDelta, hp, hpar]
          rw [List.foldl_cons, hstep, ih, hspec, hex]
          simp [hdone]
        | some delta =>
          by_cases hdel : delta = []
          · have hstep : stepLC parse (o, false) l = (o, false) := by
              simp [stepLC, hp, hd, hpar, hdel]
            have hex : extractDelta parse l = none := by
              simp [extractDelta, hp, hpar, hdel]
            rw [List.foldl_cons, hstep, ih, hspec, hex]
            simp [hdone]
          · have hstep : stepLC parse (o, false) l = (o ++ [delta], false) := by
              simp [stepLC, hp, hd, hpar, hdel]
            have hex : extractDelta parse l = some delta := by
              simp [extractDelta, hp, hpar, hdel]
            rw [List.foldl_cons, hstep, ih, hspec, hex]
            simp [hdone]
    · have hdone : isDoneLine l = false := by
        simp [isDoneLine, hp]
      have hstep : stepLC parse (o, false) l = (o, false) := by
        simp [stepLC, hp]
      have hex : extractDelta parse l = none := by
        simp [extractDelta, hp]
      have hspec : specDeltas parse (l :: ls) = specDeltas parse ls := by
        simp [specDeltas, hdone, List.filterMap_cons, hex]
      rw [List.foldl_cons, hstep, ih, hspec]
      simp [hdone]

/-- Observational equivalence of two loop states: identical output and
closed flag, and identical buffer as long as the stream is still open
(after closing the buffer is dead). -/
def SEquiv (s t : SState) : Prop :=
  s.output = t.output ∧ s.closed = t.closed ∧
    (s.closed = false → s.buffer = t.buffer)

theorem SEquiv.refl (s : SState) : SEquiv s s :=
  ⟨rfl, rfl, fun _ => rfl⟩

theorem SEquiv.symm {s t : SState} (h : SEquiv s t) : SEquiv t s :=
  ⟨h.1.symm, h.2.1.symm, fun hc => (h.2.2 (h.2.1.trans hc)).symm⟩

theorem SEquiv.trans {s t u : SState} (h1 : SEquiv s t) (h2 : SEquiv t u) :
    SEquiv s u :=
  ⟨h1.1.trans h2.1, h1.2.1.trans h2.2.1,
   fun hc => (h1.2.2 hc).trans (h2.2.2 (h1.2.1 ▸ hc))⟩

theorem processChunk_closed (parse : List Char → Option (List Char))
    (s : SState) (c : List Char) (h : s.closed = true) :
    processChunk parse s c = s := by
  simp [processChunk, h]

theorem processChunk_open (parse : List Char → Option (List Char))
    (s : SState) (c : List Char) (h : s.closed = false) :
    processChunk parse s c =
      List.foldl (processLine parse)
        { buffer := (splitLines (s.buffer ++ c)).2, output := s.output,
          closed := false } (splitLines (s.buffer ++ c)).1 := by
  simp [processChunk, h]

/-- Splitting one upstream delivery into two consecutive deliveries does
not change what the loop observes: the buffered trailing piece carries
over. -/
theorem processChunk_append (parse : List Char → Option (List Char))
    (s : SState) (a b : List Char) :
    SEquiv (processChunk parse s (a ++ b))
      (processChunk parse (processChunk parse s a) b) := by
  by_cases hcl : s.closed = true
  · rw [processChunk_closed parse s (a ++ b) hcl,
      processChunk_closed parse s a hcl, processChunk_closed parse s b hcl]
    exact SEquiv.refl s
  · have hcl' : s.closed = false := by
      cases h : s.closed
      · rfl
      · exact absurd h hcl
    have hsplit : splitLines (s.buffer ++ (a ++ b)) =
        ((splitLines (s.buffer ++ a)).1 ++
           (splitLines ((splitLines (s.buffer ++ a)).2 ++ b)).1,
         (splitLines ((splitLines (s.buffer ++ a)).2 ++ b)).2) := by
      rw [← List.append_assoc]
      exact splitLines_append (s.buffer ++ a) b
    set P := splitLines (s.buffer ++ a) with hP
    set X := splitLines (P.2 ++ b) with hX
    have hL : processChunk parse s (a ++ b) =
        List.foldl (processLine parse)
          { buffer := X.2, output := s.output, closed := false }
          (P.1 ++ X.1) := by
      rw [processChunk_open parse s (a ++ b) hcl', hsplit]
    have hs1 : processChunk parse s a =
        List.foldl (processLine parse)
          { buffer := P.2, output := s.output, closed := false } P.1 := by
      rw [processChunk_open parse s a hcl']
    have hbuf1 : (processChunk parse s a).buffer = P.2 := by
      rw [hs1, foldl_processLine_buffer]
    have hLbuf : (processChunk parse s (a ++ b)).buffer = X.2 := by
      rw [hL, foldl_processLine_buffer]
    have hview1 : ((processChunk parse s a).output,
        (processChunk parse s a).closed) =
        List.foldl (stepLC parse) (s.output, false) P.1 := by
      rw [hs1, foldl_processLine_view]
    have hviewL : ((processChunk parse s (a ++ b)).output,
        (processChunk parse s (a ++ b)).closed) =
        List.foldl (stepLC parse)
          (List.foldl (stepLC parse) (s.output, false) P.1) X.1 := by
      rw [hL, foldl_processLine_view, List.foldl_append]
    by_cases h1cl : (processChunk parse s a).closed = true
    · rw [processChunk_closed parse _ b h1cl]
      have hfold1 : List.foldl (stepLC parse) (s.output, false) P.1 =
          ((processChunk parse s a).output, true) := by
        rw [← hview1, h1cl]
      have hLoc : ((processChunk parse s (a ++ b)).output,
          (processChunk parse s (a ++ b)).closed) =
          ((processChunk parse s a).output, true) := by
        rw [hviewL, hfold1, foldl_stepLC_closed]
      have ho : (processChunk parse s (a ++ b)).output =
          (processChunk parse s a).output := by
        have h := congrArg Prod.fst hLoc
        simpa using h
      have hc2 : (processChunk parse s (a ++ b)).closed = true := by
        have h := congrArg Prod.snd hLoc
        simpa using h
      refine ⟨ho, by rw [hc2, h1cl], ?_⟩
      intro hfalse
      rw [hc2] at hfalse
      exact absurd hfalse (by decide)
    · have h1cl' : (processChunk parse s a).closed = false := by
        cases h : (processChunk parse s a).closed
        · rfl
        · exact absurd h h1cl
      have hR : processChunk parse (processChunk parse s a) b =
          List.foldl (processLine parse)
            { buffer := X.2, output := (processChunk parse s a).output,
              closed := false } X.1 := by
        rw [processChunk_open parse _ b h1cl', hbuf1]
      have hRbuf : (processChunk parse (processChunk parse s a) b).buffer =
          X.2 := by
        rw [hR, foldl_processLine_buffer]
      have hfold1 : List.foldl (stepLC parse) (s.output, false) P.1 =
          ((processChunk parse s a).output, false) := by
        rw [← hview1, h1cl']
      have hviewR : ((processChunk parse (processChunk parse s a) b).output,
          (processChunk parse (processChunk parse s a) b).closed) =
          List.foldl (stepLC parse)
            ((processChunk parse s a).output, false) X.1 := by
        rw [hR, foldl_processLine_view]
      have hviews : ((processChunk parse s (a ++ b)).output,
          (processChunk parse s (a ++ b)).closed) =
          ((processChunk parse (processChunk parse s a) b).output,
           (processChunk parse (processChunk parse s a) b).closed) := by
        rw [hviewL, hfold1, hviewR]
      have ho : (processChunk parse s (a ++ b)).output =
          (processChunk parse (processChunk parse s a) b).output := by
        have h := congrArg Prod.fst hviews
        simpa using h
      have hc2 : (processChunk parse s (a ++ b)).closed =
          (processChunk parse (processChunk parse s a) b).closed := by
        have h := congrArg Prod.snd hviews
        simpa using h
      refine ⟨ho, hc2, ?_⟩
      intro _
      rw [hLbuf, hRbuf]

theorem processChunk_congr (parse : List Char → Option (List Char))
    {s t : SState} (c : List Char) (h : SEquiv s t) :
    SEquiv (processChunk parse s c) (processChunk parse t c) := by
  obtain ⟨ho, hc, hb⟩ := h
  by_cases hcl : s.closed = true
  · rw [processChunk_closed parse s c hcl,
      processChunk_closed parse t c (hc ▸ hcl)]
    exact ⟨ho, hc, hb⟩
  · have hcl' : s.closed = false := by
      cases h : s.closed
      · rfl
      · exact absurd h hcl
    rw [processChunk_open parse s c hcl',
      processChunk_open parse t c (hc ▸ hcl'), ← hb hcl', ← ho]
    exact SEquiv.refl _

/-- Delivering the chunks one by one is observationally the same as
delivering their concatenation in one chunk, provided the starting buffer
holds no newline (which is invariant). -/
theorem foldl_processChunk_join (parse : List Char → Option (List Char))
    (chunks : List (List Char)) (s : SState)
    (hinv : s.closed = false → ∀ c ∈ s.buffer, c ≠ '\n') :
    SEquiv (List.foldl (processChunk parse) s chunks)
      (processChunk parse s chunks.flatten) := by
  induction chunks generalizing s with
  | nil =>
    by_cases hcl : s.closed = true
    · rw [List.foldl_nil, List.flatten_nil, processChunk_closed parse s [] hcl]
      exact SEquiv.refl s
    · have hcl' : s.closed = false := by
        cases h : s.closed
        · rfl
        · exact absurd h hcl
      rw [List.foldl_nil, List.flatten_nil, processChunk_open parse s [] hcl',
        List.append_nil, splitLines_no_newline s.buffer (hinv hcl'),
        List.foldl_nil]
      exact ⟨rfl, hcl', fun _ => rfl⟩
  | cons c cs ih =>
    have hinv' : (processChunk parse s c).closed = false →
        ∀ x ∈ (processChunk parse s c).buffer, x ≠ '\n' := by
      intro hopen
      by_cases hcl : s.closed = true
      · rw [processChunk_closed parse s c hcl] at hopen ⊢
        exact hinv hopen
      · have hcl' : s.closed = false := by
          cases h : s.closed
          · rfl
          · exact absurd h hcl
        have : (processChunk parse s c).buffer =
            (splitLines (s.buffer ++ c)).2 := by
          rw [processChunk_open parse s c hcl', foldl_processLine_buffer]
        rw [this]
        exact splitLines_snd_no_newline (s.buffer ++ c)
    have step1 : SEquiv (List.foldl (processChunk parse)
        (processChunk parse s c) cs)
        (processChunk parse (processChunk parse s c) cs.flatten) :=
      ih (processChunk parse s c) hinv'
    have step2 : SEquiv (processChunk parse (processChunk parse s c) cs.flatten)
        (processChunk parse s (c ++ cs.flatten)) :=
      (processChunk_append parse s c cs.flatten).symm
    rw [List.foldl_cons, List.flatten_cons]
    exact step1.trans step2

/-- C1. For every sequence of chunks delivered by the upstream response
body, the `ReadableStream` loop emits exactly the in-order deltas — the
non-empty `choices[0].delta.content` of each complete `data: <json>` line
whose payload parses — of the complete lines of the concatenated input
(so a trailing incomplete line, buffered across chunk boundaries, is never
emitted), cut off at the first `data: [DONE]` line; and the early close
happens exactly when such a `data: [DONE]` complete line occurs (otherwise
the stream is closed only when the upstream reader reports done). -/
theorem c1_stream_reframes_sse (parse : List Char → Option (List Char))
    (chunks : List (List Char)) :
    (runStream parse chunks).output =
        specDeltas parse (splitLines chunks.flatten).1 ∧
      (runStream parse chunks).closed =
        (splitLines chunks.flatten).1.any isDoneLine := by
  have hequiv : SEquiv (runStream parse chunks)
      (processChunk parse ⟨[], [], false⟩ chunks.flatten) :=
    foldl_processChunk_join parse chunks ⟨[], [], false⟩
      (fun _ => by intro c hc; simp at hc)
  have hone : processChunk parse ⟨[], [], false⟩ chunks.flatten =
      List.foldl (processLine parse)
        { buffer := (splitLines chunks.flatten).2, output := [],
          closed := false } (splitLines chunks.flatten).1 := by
    rw [processChunk_open parse _ chunks.flatten rfl]
    simp
  have hview : ((processChunk parse ⟨[], [], false⟩ chunks.flatten).output,
      (processChunk parse ⟨[], [], false⟩ chunks.flatten).closed) =
      ([] ++ specDeltas parse (splitLines chunks.flatten).1,
        (splitLines chunks.flatten).1.any isDoneLine) := by
    rw [hone, foldl_processLine_view, foldl_stepLC_spec]
  have hout : (processChunk parse ⟨[], [], false⟩ chunks.flatten).output =
      specDeltas parse (splitLines chunks.flatten).1 := by
    have h := congrArg Prod.fst hview
    simpa using h
  have hclo : (processChunk parse ⟨[], [], false⟩ chunks.flatten).closed =
      (splitLines chunks.flatten).1.any isDoneLine := by
    have h := congrArg Prod.snd hview
    simpa using h
  exact ⟨hequiv.1.trans hout, hequiv.2.1.trans hclo⟩

/-! ## C2 — calendar-day computation (route.js, `POST`, date block)

The route parses `startDate`/`endDate` with `new Date`, computes
`calculatedDays = Math.round(Math.abs((end - start) / 86400000)) + 1`, and
generates `allDates` by formatting the current date as `YYYY-MM-DD`
(`getFullYear`/`getMonth`/`getDate` with `padStart(2,'0')`) and advancing
with `setDate(getDate() + 1)` — i.e. the civil-calendar successor.  Dates
are modelled at day granularity as civil Gregorian dates; a date-only
string parses to midnight, so the millisecond quotient is exact. -/

structure CivilDate where
  year : Nat
  month : Nat
  day : Nat

/-- Gregorian leap-year rule, as `new Date` implements it. -/
def isLeap (y : Nat) : Bool :=
  (y % 4 == 0 && y % 100 != 0) || (y % 400 == 0)

/-- Length of a month in the Gregorian calendar. -/
def daysInMonth (y m : Nat) : Nat :=
  if m = 2 then (if isLeap y then 29 else 28)
  else if m = 4 ∨ m = 6 ∨ m = 9 ∨ m = 11 then 30
  else 31

/-- A well-formed civil date. -/
def CivilDate.Valid (d : CivilDate) : Prop :=
  1 ≤ d.month ∧ d.month ≤ 12 ∧ 1 ≤ d.day ∧ d.day ≤ daysInMonth d.year d.month

instance (d : CivilDate) : Decidable d.Valid := by
  unfold CivilDate.Valid
  infer_instance

/-- Days contributed by the months strictly before month `m`. -/
def daysBeforeMonth (y m : Nat) : Nat :=
  ((List.range (m - 1)).map (fun i => daysInMonth y (i + 1))).sum

/-- Days contributed by the years strictly before year `y` (arbitrary but
fixed epoch). -/
def daysBeforeYear (y : Nat) : Nat :=
  365 * y + (y + 3) / 4 - (y + 99) / 100 + (y + 399) / 400

/-- Linear day number of a civil date; two dates differ by the number of
calendar days between them. -/
def rdDay (d : CivilDate) : Nat :=
  daysBeforeYear d.year + daysBeforeMonth d.year d.month + (d.day - 1)

/-- The civil-calendar successor, as `currentDate.setDate(getDate() + 1)`
rolls over months and years. -/
def nextDay (d : CivilDate) : CivilDate :=
  if d.day < daysInMonth d.year d.month then ⟨d.year, d.month, d.day + 1⟩
  else if d.month < 12 then ⟨d.year, d.month + 1, 1⟩
  else ⟨d.year + 1, 1, 1⟩

/-- Iterated successor. -/
def addDays : Nat → CivilDate → CivilDate
  | 0, d => d
  | n + 1, d => addDays n (nextDay d)

/-- `String(n).padStart(2, '0')`. -/
def pad2 (n : Nat) : String :=
  if (toString n).length ≥ 2 then toString n else "0" ++ toString n

/-- The route's date formatting: `` `${year}-${month}-${day}` `` with the
month and day zero-padded to two digits. -/
def formatDate (d : CivilDate) : String :=
  toString d.year ++ "-" ++ pad2 d.month ++ "-" ++ pad2 d.day

/-- The dates visited by the generation loop: format the current date,
then advance by one civil day, `n` times. -/
def genDatesD : Nat → CivilDate → List CivilDate
  | 0, _ => []
  | n + 1, cur => cur :: genDatesD n (nextDay cur)

/-- The `allDates` array of `YYYY-MM-DD` strings pushed by the loop. -/
def genDates (n : Nat) (s : CivilDate) : List String :=
  (genDatesD n s).map formatDate

/-- `Math.round(Math.abs((end - start) / oneDay)) + 1` on the millisecond
timestamps of the two parsed dates (midnight, so the quotient is exact). -/
def calcDays (s e : CivilDate) : Nat :=
  ((rdDay e : Int) * 86400000 - (rdDay s : Int) * 86400000).natAbs / 86400000 + 1

/-- The whole date block of `POST`: on an unparsable date or
`start > end`, the thrown error is caught and `calculatedDays` stays `0`,
`numberOfDays` stays `'the specified date range'` and `allDates` stays
empty; otherwise the three computed values. -/
def dateBlock (ps pe : Option CivilDate) : Nat × String × List String :=
  match ps, pe with
  | some s, some e =>
    if rdDay e < rdDay s then (0, "the specified date range", [])
    else (calcDays s e, toString (calcDays s e) ++ " days", genDates (calcDays s e) s)
  | _, _ => (0, "the specified date range", [])

/-! Calendar lemmas for C2. -/

theorem daysInMonth_pos (y m : Nat) : 1 ≤ daysInMonth y m := by
  unfold daysInMonth
  split
  · split <;> omega
  · split <;> omega

theorem daysBeforeMonth_succ (y m : Nat) (h : 1 ≤ m) :
    daysBeforeMonth y (m + 1) = daysBeforeMonth y m + daysInMonth y m := by
  obtain ⟨k, rfl⟩ : ∃ k, m = k + 1 := ⟨m - 1, by omega⟩
  unfold daysBeforeMonth
  simp [List.range_succ]

theorem daysBeforeMonth_one (y : Nat) : daysBeforeMonth y 1 = 0 := by
  simp [daysBeforeMonth]

theorem daysBeforeMonth_twelve (y : Nat) :
    daysBeforeMonth y 12 = 334 + (if isLeap y then 1 else 0) := by
  have hrange : List.range 11 = [0, 1, 2, 3, 4, 5, 6, 7, 8, 9, 10] := by rfl
  by_cases h : isLeap y <;>
    simp [daysBeforeMonth, hrange, daysInMonth, h]

theorem daysBeforeYear_succ (y : Nat) :
    daysBeforeYear (y + 1) = daysBeforeYear y + 365 + (if isLeap y then 1 else 0) := by
  by_cases h : isLeap y
  · have hcond : (y % 4 = 0 ∧ ¬y % 100 = 0) ∨ y % 400 = 0 := by
      simpa [isLeap, Bool.or_eq_true, Bool.and_eq_true, beq_iff_eq,
        bne_iff_ne] using h
    simp only [daysBeforeYear, if_pos h]
    omega
  · have hcond : ¬((y % 4 = 0 ∧ ¬y % 100 = 0) ∨ y % 400 = 0) := by
      simpa [isLeap, Bool.or_eq_true, Bool.and_eq_true, beq_iff_eq,
        bne_iff_ne] using h
    simp only [daysBeforeYear, if_neg h]
    omega

theorem nextDay_valid (d : CivilDate) (h : d.Valid) : (nextDay d).Valid := by
  obtain ⟨h1, h2, h3, h4⟩ := h
  unfold nextDay
  split_ifs with hd hm
  · exact ⟨h1, h2, by show 1 ≤ d.day + 1; omega,
      by show d.day + 1 ≤ daysInMonth d.year d.month; omega⟩
  · exact ⟨by show 1 ≤ d.month + 1; omega, by show d.month + 1 ≤ 12; omega,
      le_refl 1, daysInMonth_pos _ _⟩
  · exact ⟨le_refl 1, by show (1 : Nat) ≤ 12; omega, le_refl 1,
      daysInMonth_pos _ _⟩

theorem rdDay_nextDay (d : CivilDate) (h : d.Valid) :
    rdDay (nextDay d) = rdDay d + 1 := by
  obtain ⟨h1, h2, h3, h4⟩ := h
  unfold nextDay
  split_ifs with hd hm
  · show daysBeforeYear d.year + daysBeforeMonth d.year d.month + (d.day + 1 - 1) =
      daysBeforeYear d.year + daysBeforeMonth d.year d.month + (d.day - 1) + 1
    omega
  · show daysBeforeYear d.year + daysBeforeMonth d.year (d.month + 1) + (1 - 1) =
      daysBeforeYear d.year + daysBeforeMonth d.year d.month + (d.day - 1) + 1
    rw [daysBeforeMonth_succ d.year d.month h1]
    omega
  · have hm12 : d.month = 12 := by omega
    have h31 : daysInMonth d.year 12 = 31 := by
      unfold daysInMonth
      norm_num
    have hday : d.day = 31 := by
      rw [hm12] at hd h4
      omega
    show daysBeforeYear (d.year + 1) + daysBeforeMonth (d.year + 1) 1 + (1 - 1) =
      daysBeforeYear d.year + daysBeforeMonth d.year d.month + (d.day - 1) + 1
    rw [daysBeforeYear_succ, daysBeforeMonth_one, hm12, hday,
      daysBeforeMonth_twelve]
    by_cases hl : isLeap d.year <;> simp [hl]

theorem addDays_valid (n : Nat) (d : CivilDate) (h : d.Valid) :
    (addDays n d).Valid := by
  induction n generalizing d with
  | zero => exact h
  | succ k ih => exact ih (nextDay d) (nextDay_valid d h)

theorem rdDay_addDays (n : Nat) (d : CivilDate) (h : d.Valid) :
    rdDay (addDays n d) = rdDay d + n := by
  induction n generalizing d with
  | zero => rfl
  | succ k ih =>
    show rdDay (addDays k (nextDay d)) = rdDay d + (k + 1)
    rw [ih (nextDay d) (nextDay_valid d h), rdDay_nextDay d h]
    omega

theorem genDatesD_length (n : Nat) (s : CivilDate) :
    (genDatesD n s).length = n := by
  induction n generalizing s with
  | zero => rfl
  | succ k ih => simp [genDatesD, ih]

theorem genDatesD_map_rdDay (n : Nat) (s : CivilDate) (h : s.Valid) :
    (genDatesD n s).map rdDay = (List.range n).map (fun i => rdDay s + i) := by
  induction n generalizing s with
  | zero => rfl
  | succ k ih =>
    rw [List.range_succ_eq_map]
    show rdDay s :: (genDatesD k (nextDay s)).map rdDay = _
    rw [ih (nextDay s) (nextDay_valid s h)]
    simp only [List.map_cons, List.map_map]
    refine List.cons_eq_cons.mpr ⟨by omega, ?_⟩
    apply List.map_congr_left
    intro a _
    simp only [Function.comp_apply]
    rw [rdDay_nextDay s h]
    omega

theorem genDatesD_eq_addDays (n : Nat) (s : CivilDate) :
    genDatesD n s = (List.range n).map (fun i => addDays i s) := by
  induction n generalizing s with
  | zero => rfl
  | succ k ih =>
    rw [List.range_succ_eq_map]
    show s :: genDatesD k (nextDay s) = _
    rw [ih (nextDay s)]
    simp only [List.map_cons, List.map_map]
    rfl

theorem calcDays_eq (s e : CivilDate) (h : rdDay s ≤ rdDay e) :
    calcDays s e = rdDay e - rdDay s + 1 := by
  unfold calcDays
  omega

/-! ## C3 — `getTravelData` (route.js)

External outcomes are an environment: the geocode pair, the SerpApi
`getJson` result keyed by the query string, the two TomTom routing calls
(a `some` summary exactly when the settled fetch was fulfilled, `ok`, and
returned a non-empty `routes` array), and the rounded kilometre value the
floating-point Haversine computation would produce for the resolved
coordinate pair. -/

/-- Outcome of an awaited external call: resolved value or thrown
error/rejection with its message. -/
inductive Fetched (α : Type) where
  | ok (val : α)
  | err (msg : String)

/-- A geographic position as returned by TomTom geocoding. -/
structure Coords where
  lat : Int
  lon : Int

/-- The `answer_box` fields of a SerpApi organic-search result that the
route reads (each may be absent). -/
structure AnswerBox where
  answer : Option String
  duration : Option String
  snippet : Option String

/-- Summary of one TomTom route. -/
structure RouteSummary where
  lengthInMeters : Nat
  travelTimeInSeconds : Nat

/-- A travel option pushed into `options`. -/
structure TravelOption where
  mode : String
  time : String
  distance : Option String

/-- Return value of `getTravelData`. -/
structure TravelData where
  options : List TravelOption
  distance : String

/-- Environment of external outcomes for one `getTravelData` call. -/
structure TravelEnv where
  geocodePair : Fetched (Coords × Coords)
  hasSerpKey : Bool
  serp : String → Fetched AnswerBox
  carRoute : Option RouteSummary
  busRoute : Option RouteSummary
  havKm : Nat

/-- JavaScript truthiness of an optional string field: present and
non-empty.  Returns the value itself when truthy. -/
def truthyStr : Option String → Option String
  | some s => if s = "" then none else some s
  | none => none

/-- `formatTravelTime`: `` `${Math.floor(s/3600)} hours
${Math.floor((s%3600)/60)} mins` ``. -/
def formatTravelTime (s : Nat) : String :=
  toString (s / 3600) ++ " hours " ++ toString (s % 3600 / 60) ++ " mins"

/-- `` `${(route.lengthInMeters / 1000).toFixed(0)} km` `` — metres to
whole kilometres, rounded half away from zero. -/
def kmStr (m : Nat) : String :=
  toString ((m + 500) / 1000) ++ " km"

/-- Early-return path when coordinate fetching fails inside
`getTravelData`: the `overallDistance` after the SerpApi distance
fallback. -/
def travelEarlyDistance (env : TravelEnv) (from_ dest : String) : String :=
  if env.hasSerpKey then
    match env.serp ("distance from " ++ from_ ++ " to " ++ dest) with
    | .ok ab =>
      match truthyStr ab.answer with
      | some a => a
      | none => "N/A"
    | .err _ => "N/A"
  else "N/A"

/-- Early-return path when coordinate fetching fails inside
`getTravelData`: the flight option from the SerpApi flight fallback. -/
def travelEarlyOpts (env : TravelEnv) (from_ dest : String) :
    List TravelOption :=
  if env.hasSerpKey then
    match env.serp ("flight time from " ++ from_ ++ " to " ++ dest) with
    | .ok ab =>
      match truthyStr ab.duration with
      | some d => [⟨"Flight", d, none⟩]
      | none =>
        match truthyStr ab.snippet with
        | some sn => [⟨"Flight", sn, none⟩]
        | none => []
    | .err _ => []
  else []

/-- Step 2 of `getTravelData`: the `Car` option pushed when the TomTom car
route came back fulfilled, ok and non-empty. -/
def travelCarOpt (env : TravelEnv) : List TravelOption :=
  match env.carRoute with
  | some r => [⟨"Car", formatTravelTime r.travelTimeInSeconds,
      some (kmStr r.lengthInMeters)⟩]
  | none => []

/-- Step 2 of `getTravelData`: the `Bus/Train (Public)` option. -/
def travelBusOpt (env : TravelEnv) : List TravelOption :=
  match env.busRoute with
  | some r => [⟨"Bus/Train (Public)", formatTravelTime r.travelTimeInSeconds,
      some (kmStr r.lengthInMeters)⟩]
  | none => []

/-- `overallDistance` after step 2: the car route's distance, else the bus
route's, else still `"N/A"`. -/
def travelOverall2 (env : TravelEnv) : String :=
  match env.carRoute with
  | some r => kmStr r.lengthInMeters
  | none =>
    match env.busRoute with
    | some r => kmStr r.lengthInMeters
    | none => "N/A"

/-- Step 3 of `getTravelData`: the SerpApi flight option, with the
long-haul Haversine guess when no option was found at all. -/
def travelFlightOpt (env : TravelEnv) (from_ dest : String) :
    List TravelOption :=
  if env.hasSerpKey then
    match env.serp ("flight time from " ++ from_ ++ " to " ++ dest) with
    | .ok ab =>
      match truthyStr ab.duration with
      | some d => [⟨"Flight", d, none⟩]
      | none =>
        match truthyStr ab.snippet with
        | some sn => [⟨"Flight", sn, none⟩]
        | none =>
          if (travelCarOpt env ++ travelBusOpt env).length = 0 then
            if env.havKm > 1000 then
              [⟨"Flight", "Varies (check airlines)", none⟩]
            else []
          else []
    | .err _ => []
  else []

/-- Step 4 of `getTravelData`: the fallback distance computation (SerpApi
answer box, else the Haversine distance with the `" (direct)"` suffix). -/
def travelOverall3 (env : TravelEnv) (from_ dest : String) : String :=
  if travelOverall2 env = "N/A" then
    if env.hasSerpKey then
      match env.serp ("distance between " ++ from_ ++ " and " ++ dest) with
      | .ok ab =>
        match truthyStr ab.answer with
        | some a => a
        | none => toString env.havKm ++ " km (direct)"
      | .err _ => toString env.havKm ++ " km (direct)"
    else toString env.havKm ++ " km (direct)"
  else travelOverall2 env

/-- Shallow embedding of `getTravelData(from, destination,
preFetchedFromCoords, preFetchedDestCoords)`, assembled from the helpers
above, which mirror the function's numbered sections.  Every `try/catch`
is resolved through the environment, so the function is total: it never
throws. -/
def getTravelData (env : TravelEnv) (from_ dest : String)
    (pre : Option (Coords × Coords)) : TravelData :=
  match (match pre with | some p => Fetched.ok p | none => env.geocodePair) with
  | .err _ => ⟨travelEarlyOpts env from_ dest, travelEarlyDistance env from_ dest⟩
  | .ok _ =>
    ⟨travelCarOpt env ++ travelBusOpt env ++ travelFlightOpt env from_ dest,
      travelOverall3 env from_ dest⟩

/-! Supporting lemmas for C3. -/

theorem travelCarOpt_modes (env : TravelEnv) :
    ∀ o ∈ travelCarOpt env, o.mode = "Car" := by
  unfold travelCarOpt
  cases env.carRoute <;> simp

theorem travelCarOpt_len (env : TravelEnv) : (travelCarOpt env).length ≤ 1 := by
  unfold travelCarOpt
  cases env.carRoute <;> simp

theorem travelBusOpt_modes (env : TravelEnv) :
    ∀ o ∈ travelBusOpt env, o.mode = "Bus/Train (Public)" := by
  unfold travelBusOpt
  cases env.busRoute <;> simp

theorem travelBusOpt_len (env : TravelEnv) : (travelBusOpt env).length ≤ 1 := by
  unfold travelBusOpt
  cases env.busRoute <;> simp

theorem travelFlightOpt_modes (env : TravelEnv) (f d : String) :
    ∀ o ∈ travelFlightOpt env f d, o.mode = "Flight" := by
  unfold travelFlightOpt
  (repeat' split) <;> simp_all

theorem travelFlightOpt_len (env : TravelEnv) (f d : String) :
    (travelFlightOpt env f d).length ≤ 1 := by
  unfold travelFlightOpt
  (repeat' split) <;> simp_all

theorem travelEarlyOpts_modes (env : TravelEnv) (f d : String) :
    ∀ o ∈ travelEarlyOpts env f d, o.mode = "Flight" := by
  unfold travelEarlyOpts
  (repeat' split) <;> simp_all

theorem travelEarlyOpts_len (env : TravelEnv) (f d : String) :
    (travelEarlyOpts env f d).length ≤ 1 := by
  unfold travelEarlyOpts
  (repeat' split) <;> simp_all

theorem countP_mode_le_one (l : List TravelOption) (h : l.length ≤ 1)
    (p : TravelOption → Bool) : l.countP p ≤ 1 :=
  le_trans (List.countP_le_length p) h

theorem countP_mode_zero (l : List TravelOption) (m mm : String)
    (hmode : ∀ o ∈ l, o.mode = m) (hne : m ≠ mm) :
    l.countP (fun o => o.mode == mm) = 0 := by
  rw [List.countP_eq_zero]
  intro o ho
  simp [hmode o ho, hne]

theorem travelEarlyDistance_spec (env : TravelEnv) (f d : String) :
    travelEarlyDistance env f d = "N/A" ∨
      ∃ q ab, env.serp q = .ok ab ∧
        truthyStr ab.answer = some (travelEarlyDistance env f d) := by
  unfold travelEarlyDistance
  by_cases hk : env.hasSerpKey
  · simp only [hk, if_true]
    cases hserp : env.serp ("distance from " ++ f ++ " to " ++ d) with
    | ok ab =>
      cases hta : truthyStr ab.answer with
      | some a =>
        right
        exact ⟨"distance from " ++ f ++ " to " ++ d, ab, hserp, by simp [hta]⟩
      | none => left; simp [hta]
    | err m => left; rfl
  · simp [hk]

theorem travelOverall3_spec (env : TravelEnv) (f d : String) :
    travelOverall3 env f d = "N/A" ∨
      (∃ r, (env.carRoute = some r ∨ env.busRoute = some r) ∧
        travelOverall3 env f d = kmStr r.lengthInMeters) ∨
      (∃ q ab, env.serp q = .ok ab ∧
        truthyStr ab.answer = some (travelOverall3 env f d)) ∨
      travelOverall3 env f d = toString env.havKm ++ " km (direct)" := by
  unfold travelOverall3
  by_cases h2 : travelOverall2 env = "N/A"
  · simp only [h2, if_true, if_pos]
    by_cases hk : env.hasSerpKey
    · simp only [hk, if_true]
      cases hserp : env.serp ("distance between " ++ f ++ " and " ++ d) with
      | ok ab =>
        cases hta : truthyStr ab.answer with
        | some a =>
          right; right; left
          exact ⟨"distance between " ++ f ++ " and " ++ d, ab, hserp, by simp [hta]⟩
        | none => right; right; right; simp [hta]
      | err m => right; right; right; rfl
    · simp only [hk, if_false]
      right; right; right
      simp
  · simp only [h2, if_neg, if_false]
    right; left
    unfold travelOverall2 at h2 ⊢
    cases hcar : env.carRoute with
    | some r => exact ⟨r, Or.inl rfl, rfl⟩
    | none =>
      cases hbus : env.busRoute with
      | some r => exact ⟨r, Or.inr rfl, rfl⟩
      | none =>
        rw [hcar, hbus] at h2
        exact absurd rfl h2

/-- C3.  For every pair of locations and every combination of external
outcomes, `getTravelData` returns an `{options, distance}` record (it is
total, hence never throws) in which `options` holds at most one entry for
each of the modes `Car`, `Bus/Train (Public)` and `Flight` and nothing
else, and `distance` is `"N/A"`, a routing distance in whole kilometres, a
truthy SerpApi answer-box answer, or the Haversine estimate suffixed with
`" (direct)"`. -/
theorem c3_getTravelData_shape (env : TravelEnv) (from_ dest : String)
    (pre : Option (Coords × Coords)) :
    ((getTravelData env from_ dest pre).options.countP
        (fun o => o.mode == "Car") ≤ 1) ∧
    ((getTravelData env from_ dest pre).options.countP
        (fun o => o.mode == "Bus/Train (Public)") ≤ 1) ∧
    ((getTravelData env from_ dest pre).options.countP
        (fun o => o.mode == "Flight") ≤ 1) ∧
    (∀ o ∈ (getTravelData env from_ dest pre).options,
        o.mode = "Car" ∨ o.mode = "Bus/Train (Public)" ∨ o.mode = "Flight") ∧
    ((getTravelData env from_ dest pre).distance = "N/A" ∨
      (∃ r, (env.carRoute = some r ∨ env.busRoute = some r) ∧
        (getTravelData env from_ dest pre).distance = kmStr r.lengthInMeters) ∨
      (∃ q ab, env.serp q = .ok ab ∧
        truthyStr ab.answer = some (getTravelData env from_ dest pre).distance) ∨
      (getTravelData env from_ dest pre).distance =
        toString env.havKm ++ " km (direct)") := by
  unfold getTravelData
  cases hco : (match pre with | some p => Fetched.ok p | none => env.geocodePair) with
  | err m =>
    refine ⟨?_, ?_, ?_, ?_, ?_⟩
    · exact countP_mode_le_one _ (travelEarlyOpts_len env from_ dest) _
    · rw [countP_mode_zero _ "Flight" _ (travelEarlyOpts_modes env from_ dest)
        (by decide)]
      omega
    · exact countP_mode_le_one _ (travelEarlyOpts_len env from_ dest) _
    · intro o ho
      exact Or.inr (Or.inr (travelEarlyOpts_modes env from_ dest o ho))
    · rcases travelEarlyDistance_spec env from_ dest with h | h
      · exact Or.inl h
      · exact Or.inr (Or.inr (Or.inl h))
  | ok p =>
    refine ⟨?_, ?_, ?_, ?_, ?_⟩
    · simp only [List.countP_append]
      have h1 := countP_mode_le_one _ (travelCarOpt_len env)
        (fun o => o.mode == "Car")
      have h2 := countP_mode_zero _ "Bus/Train (Public)" "Car"
        (travelBusOpt_modes env) (by decide)
      have h3 := countP_mode_zero _ "Flight" "Car"
        (travelFlightOpt_modes env from_ dest) (by decide)
      omega
    · simp only [List.countP_append]
      have h1 := countP_mode_zero _ "Car" "Bus/Train (Public)"
        (travelCarOpt_modes env) (by decide)
      have h2 := countP_mode_le_one _ (travelBusOpt_len env)
        (fun o => o.mode == "Bus/Train (Public)")
      have h3 := countP_mode_zero _ "Flight" "Bus/Train (Public)"
        (travelFlightOpt_modes env from_ dest) (by decide)
      omega
    · simp only [List.countP_append]
      have h1 := countP_mode_zero _ "Car" "Flight"
        (travelCarOpt_modes env) (by decide)
      have h2 := countP_mode_zero _ "Bus/Train (Public)" "Flight"
        (travelBusOpt_modes env) (by decide)
      have h3 := countP_mode_le_one _ (travelFlightOpt_len env from_ dest)
        (fun o => o.mode == "Flight")
      omega
    · intro o ho
      rcases List.mem_append.mp ho with ho | ho
      · rcases List.mem_append.mp ho with ho | ho
        · exact Or.inl (travelCarOpt_modes env o ho)
        · exact Or.inr (Or.inl (travelBusOpt_modes env o ho))
      · exact Or.inr (Or.inr (travelFlightOpt_modes env from_ dest o ho))
    · exact travelOverall3_spec env from_ dest

/-! ## C8 — `getDestinationInfo` (route.js)

The three bundled searches run under `Promise.all` inside the outer
`try`; the two hotel fallbacks have their own local `try/catch`; the
best-time extraction can itself throw (indexing `organic_results[0]` on an
empty but present array), and that throw is caught by the outer `catch`.
Raw SerpApi hotel entries are records of optional string fields plus an
optional numeric rating (the `typeof h.rating === 'number'` check is the
`Option` type). -/

/-- A raw `local_results` entry with the fields the route reads. -/
structure SerpHotelRaw where
  title : Option String
  name : Option String
  address : Option String
  vicinity : Option String
  thumbnail : Option String
  thumbnail_image : Option String
  image : Option String
  rating : Option Int
  website : Option String
  link : Option String

/-- A mapped hotel record as built by the route. -/
structure HotelInfo where
  name : String
  address : String
  photo : Option String
  rating : Option Int
  link : Option String

/-- First truthy value of a `||` chain over optional string fields. -/
def firstTruthy : List (Option String) → Option String
  | [] => none
  | o :: rest =>
    match truthyStr o with
    | some s => some s
    | none => firstTruthy rest

/-- The per-entry mapping: `name: String(h.title || h.name ||
'Hotel').trim()`, `address: String(h.address || h.vicinity || '').trim()`,
`photo: h.thumbnail || h.thumbnail_image || h.image || null`,
`rating: typeof h.rating === 'number' ? h.rating : null`,
`link: h.website || h.link || null`. -/
def mapRawHotel (h : SerpHotelRaw) : HotelInfo :=
  { name := ((firstTruthy [h.title, h.name]).getD "Hotel").trim
    address := ((firstTruthy [h.address, h.vicinity]).getD "").trim
    photo := firstTruthy [h.thumbnail, h.thumbnail_image, h.image]
    rating := h.rating
    link := firstTruthy [h.website, h.link] }

/-- `local_results.slice(0, 6).map(...).filter(h => h.name && h.name !==
'Hotel')`. -/
def takeMapFilter (l : List SerpHotelRaw) : List HotelInfo :=
  ((l.take 6).map mapRawHotel).filter
    (fun h => !(h.name == "") && !(h.name == "Hotel"))

/-- The `answer_box`/`organic_results` fields of the best-time search that
the route reads; each organic result contributes its optional snippet. -/
structure BestTimeRes where
  answer_box_snippet : Option String
  answer_box_answer : Option String
  organic_results : Option (List (Option String))

/-- Environment of external outcomes for one `getDestinationInfo` call:
the `Promise.all` bundle (attraction names from the knowledge graph,
sight titles from `top_sights`, hotel `local_results`, best-time result),
and the two hotel fallback searches. -/
structure DestEnv where
  hasSerpKey : Bool
  bundle : Fetched (Option (List String) × Option (List String) ×
    Option (List SerpHotelRaw) × BestTimeRes)
  mapsResults : Fetched (Option (List SerpHotelRaw))
  simpleResults : Fetched (Option (List SerpHotelRaw))

/-- Return value of `getDestinationInfo`. -/
structure DestInfo where
  highlights : List String
  hotels : List HotelInfo
  bestTime : String

/-- The error fallback `{highlights: [], hotels: [],
bestTime: "N/A (Error fetching details)"}`. -/
def destInfoError : DestInfo :=
  ⟨[], [], "N/A (Error fetching details)"⟩

/-- The best-time expression `bestTimeSearch.answer_box?.snippet ||
bestTimeSearch.answer_box?.answer || (bestTimeSearch.organic_results &&
bestTimeSearch.organic_results[0].snippet) || "Varies by season."`.
Reading `[0].snippet` of a present-but-empty `organic_results` array
throws a `TypeError`, which the outer catch turns into the error
fallback. -/
def bestTimeOf (b : BestTimeRes) : Fetched String :=
  match truthyStr b.answer_box_snippet with
  | some s => .ok s
  | none =>
    match truthyStr b.answer_box_answer with
    | some s => .ok s
    | none =>
      match b.organic_results with
      | none => .ok "Varies by season."
      | some [] => .err "TypeError: cannot read snippet of undefined"
      | some (sn :: _) =>
        match truthyStr sn with
        | some s => .ok s
        | none => .ok "Varies by season."

/-- `if (hotels.length === 0) { ...fallback... }`: keep the hotels found
so far unless none were found, in which case use the fallback search's
result. -/
def pickHotels (first fallback : List HotelInfo) : List HotelInfo :=
  if first.length = 0 then fallback else first

/-- Hotels extracted from one search result: present non-empty
`local_results` are sliced, mapped and filtered; an absent or empty field
contributes nothing. -/
def hotelsFromLocal (lr : Option (List SerpHotelRaw)) : List HotelInfo :=
  match lr with
  | some l => if l.length ≠ 0 then takeMapFilter l else []
  | none => []

/-- Hotels from a fallback search whose own errors are caught locally and
leave the list empty. -/
def hotelsFromFetched (r : Fetched (Option (List SerpHotelRaw))) :
    List HotelInfo :=
  match r with
  | .ok lr => hotelsFromLocal lr
  | .err _ => []

/-- Hotels from the bundled `Promise.all` hotel search. -/
def hotelsFromBundle (b : Fetched (Option (List String) × Option (List String) ×
    Option (List SerpHotelRaw) × BestTimeRes)) : List HotelInfo :=
  match b with
  | .ok (_, _, lr, _) => hotelsFromLocal lr
  | .err _ => []

/-- The hotels after `local_results`, the Google-Maps fallback and the
simple-query fallback, in the route's order. -/
def destHotels (env : DestEnv) : List HotelInfo :=
  pickHotels
    (pickHotels (hotelsFromBundle env.bundle)
      (hotelsFromFetched env.mapsResults))
    (hotelsFromFetched env.simpleResults)


/-- `highlights`: knowledge-graph attraction names, else `top_sights`
titles, else `[]` (an empty present array is truthy and is kept). -/
def destHighlights (kg ts : Option (List String)) : List String :=
  match kg with
  | some l => l
  | none =>
    match ts with
    | some l => l
    | none => []

/-- Shallow embedding of `getDestinationInfo(destination, budget)`.  The
missing-key throw, the bundle rejection and the best-time `TypeError` all
land in the outer `catch`, which returns `destInfoError`; the function is
total, so it never throws to its caller.  (The `destination`/`budget`
arguments only shape the query strings, which the environment record
already resolves.) -/
def getDestinationInfo (env : DestEnv) (destination budget : String) :
    DestInfo :=
  if ¬env.hasSerpKey then destInfoError
  else
    match env.bundle with
    | .err _ => destInfoError
    | .ok (kg, ts, _, btr) =>
      match bestTimeOf btr with
      | .err _ => destInfoError
      | .ok bestTime =>
        ⟨destHighlights kg ts, destHotels env, bestTime⟩

/-! Supporting lemmas for C8. -/

theorem takeMapFilter_len (l : List SerpHotelRaw) :
    (takeMapFilter l).length ≤ 6 := by
  unfold takeMapFilter
  calc (((l.take 6).map mapRawHotel).filter
        (fun h => !(h.name == "") && !(h.name == "Hotel"))).length
      ≤ ((l.take 6).map mapRawHotel).length := List.length_filter_le _ _
    _ = (l.take 6).length := List.length_map _ _
    _ ≤ 6 := by rw [List.length_take]; omega

theorem takeMapFilter_names (l : List SerpHotelRaw) :
    ∀ h ∈ takeMapFilter l, h.name ≠ "" ∧ h.name ≠ "Hotel" := by
  intro h hmem
  have := List.of_mem_filter hmem
  constructor
  · intro hx
    simp [hx] at this
  · intro hx
    simp [hx] at this

theorem hotelsFromLocal_len (lr : Option (List SerpHotelRaw)) :
    (hotelsFromLocal lr).length ≤ 6 := by
  cases lr with
  | none => simp [hotelsFromLocal]
  | some l =>
    by_cases h : l.length ≠ 0
    · simp [hotelsFromLocal, h, takeMapFilter_len l]
    · simp [hotelsFromLocal, h]

theorem hotelsFromLocal_names (lr : Option (List SerpHotelRaw)) :
    ∀ h ∈ hotelsFromLocal lr, h.name ≠ "" ∧ h.name ≠ "Hotel" := by
  cases lr with
  | none => simp [hotelsFromLocal]
  | some l =>
    by_cases h : l.length ≠ 0
    · simpa [hotelsFromLocal, h] using takeMapFilter_names l
    · simp [hotelsFromLocal, h]

theorem hotelsFromFetched_len (r : Fetched (Option (List SerpHotelRaw))) :
    (hotelsFromFetched r).length ≤ 6 := by
  unfold hotelsFromFetched
  cases r with
  | ok lr => exact hotelsFromLocal_len lr
  | err m => simp

theorem hotelsFromFetched_names (r : Fetched (Option (List SerpHotelRaw))) :
    ∀ h ∈ hotelsFromFetched r, h.name ≠ "" ∧ h.name ≠ "Hotel" := by
  unfold hotelsFromFetched
  cases r with
  | ok lr => exact hotelsFromLocal_names lr
  | err m => simp

theorem hotelsFromBundle_len (b : Fetched (Option (List String) ×
    Option (List String) × Option (List SerpHotelRaw) × BestTimeRes)) :
    (hotelsFromBundle b).length ≤ 6 := by
  unfold hotelsFromBundle
  cases b with
  | ok q =>
    obtain ⟨kg, ts, lr, btr⟩ := q
    exact hotelsFromLocal_len lr
  | err m => simp

theorem hotelsFromBundle_names (b : Fetched (Option (List String) ×
    Option (List String) × Option (List SerpHotelRaw) × BestTimeRes)) :
    ∀ h ∈ hotelsFromBundle b, h.name ≠ "" ∧ h.name ≠ "Hotel" := by
  unfold hotelsFromBundle
  cases b with
  | ok q =>
    obtain ⟨kg, ts, lr, btr⟩ := q
    exact hotelsFromLocal_names lr
  | err m => simp

theorem pickHotels_len (a b : List HotelInfo) (ha : a.length ≤ 6)
    (hb : b.length ≤ 6) : (pickHotels a b).length ≤ 6 := by
  unfold pickHotels
  split <;> assumption

theorem pickHotels_names (a b : List HotelInfo)
    (ha : ∀ h ∈ a, h.name ≠ "" ∧ h.name ≠ "Hotel")
    (hb : ∀ h ∈ b, h.name ≠ "" ∧ h.name ≠ "Hotel") :
    ∀ h ∈ pickHotels a b, h.name ≠ "" ∧ h.name ≠ "Hotel" := by
  unfold pickHotels
  split <;> assumption

theorem destHotels_len (env : DestEnv) : (destHotels env).length ≤ 6 := by
  unfold destHotels
  exact pickHotels_len _ _
    (pickHotels_len _ _ (hotelsFromBundle_len env.bundle)
      (hotelsFromFetched_len env.mapsResults))
    (hotelsFromFetched_len env.simpleResults)

theorem destHotels_names (env : DestEnv) :
    ∀ h ∈ destHotels env, h.name ≠ "" ∧ h.name ≠ "Hotel" := by
  unfold destHotels
  exact pickHotels_names _ _
    (pickHotels_names _ _ (hotelsFromBundle_names env.bundle)
      (hotelsFromFetched_names env.mapsResults))
    (hotelsFromFetched_names env.simpleResults)

/-- Characters of a Lean string, for prompt segments. -/
def lit (s : String) : List Char :=
  s.data

/-- `highlights.join(', ') || 'N/A'`. -/
def joinOrNA (highlights : List String) : String :=
  if String.intercalate ", " highlights = "" then "N/A"
  else String.intercalate ", " highlights

/-- `JSON.stringify` of an array of plain strings (the generated
`YYYY-MM-DD` strings contain nothing needing escapes). -/
def jsonStringArray (xs : List String) : String :=
  "[" ++ String.intercalate "," (xs.map (fun s => "\"" ++ s ++ "\"")) ++ "]"

/-- JavaScript indexing inside a template literal: an out-of-range access
gives `undefined`, which interpolates as the text `undefined`. -/
def jsIndex (xs : List String) (i : Nat) : String :=
  match xs.get? i with
  | some s => s
  | none => "undefined"

/-- The prompt template of `POST` as the ordered list of its pieces:
literal text between the interpolations (braces, apostrophes and slashes
written with character escapes) and one segment per interpolated
expression.  Serialized values that the route obtains from
`JSON.stringify` on fetched data are passed in already serialized. -/
def promptSegments (from_ destination startDate endDate budget
    transportMode : List Char) (interests : List String)
    (distance optionsJson : List Char) (highlights : List String)
    (bestTime hotelsJson fromCoordsJson destCoordsJson : List Char)
    (calculatedDays : Nat) (numberOfDays : List Char)
    (allDates : List String) (hotelNames : List String) :
    List (List Char) :=
  [lit "\n      CRITICAL: Your response must be PURE JSON only. Do NOT write any text like \"Here is the itinerary\" or any explanations before or after the JSON. Start immediately with \x7b and end with \x7d. Nothing else.\n      \n      You are an expert travel planner. You MUST use the provided REAL-WORLD DATA to create a detailed, practical, and inspiring itinerary. Do not invent information.\n\n      --- USER PREFERENCES ---\n      - From: ",
   from_,
   lit "\n      - Destination: ",
   destination,
   lit "\n      - Dates: ",
   startDate,
   lit " to ",
   endDate,
   lit " (Total: ",
   numberOfDays,
   lit ")\n      - Budget: ",
   budget,
   lit "\n      - Preferred Transport: ",
   transportMode,
   lit "\n      - Interests: ",
   lit (String.intercalate ", " interests),
   lit "\n\n      --- REAL-WORLD DATA ---\n      1. Travel Options:\n         - Distance: ",
   distance,
   lit "\n         - Options: ",
   optionsJson,
   lit "\n      2. Destination Info:\n         - Top Highlights: ",
   lit (joinOrNA highlights),
   lit "\n         - Best Time to Visit: ",
   bestTime,
   lit "\n         - Suggested ",
   budget,
   lit " Hotels: ",
   hotelsJson,
   lit "\n      3. Coordinates:\n         - Origin (",
   from_,
   lit "): ",
   fromCoordsJson,
   lit "\n         - Destination (",
   destination,
   lit "): ",
   destCoordsJson,
   lit "\n      ",
   (if 0 < calculatedDays then lit "4. Specific Dates To Plan For: " else lit ""),
   (if 0 < calculatedDays then lit (jsonStringArray allDates) else lit ""),
   lit "\n\n      --- YOUR TASK ---\n      1. Create \"travelAnalysis\". Use \"Travel Options\" data.\n      2. Create \"destinationSummary\". Pass \"bestTimeToVisit\" and \"hotelSuggestions\" data.\n      3. Create \"thoughtProcess\".\n      4. **MANDATORY REQUIREMENT: Create a complete day-by-day \"days\" array covering THE ENTIRE DURATION from ",
   startDate,
   lit " to ",
   endDate,
   lit ". This means you MUST generate exactly ",
   numberOfDays,
   lit " objects in the \"days\" array, one for each date provided in the \x27Specific Dates To Plan For\x27 data. Do not stop early. Use the provided dates.**\n      5. For each day object, include a unique \x27day\x27 number (1, 2, 3,... up to ",
   (if 0 < calculatedDays then lit (toString calculatedDays) else lit "the end date"),
   lit "), the corresponding \x27date\x27 string from the \x27Specific Dates To Plan For\x27 data (if available, otherwise calculate it), a \x27title\x27, and an \x27activities\x27 array.\n      6. Each \x27activities\x27 array MUST include detailed entries for \"Morning\", \"Afternoon\", and \"Evening\".\n      7. Add 1-2 sentence \"description\" for each activity explaining relevance to interests: ",
   lit (String.intercalate ", " interests),
   lit ".\n      8. Weave in \"Top Highlights\" naturally.\n\n      --- JSON-ONLY RESPONSE ---\n      Respond ONLY with a valid JSON object. No text before or after the JSON. Do NOT include any comments in the JSON output. Ensure ALL string values are in double quotes (\"\"). Check your final JSON for validity before outputting.\n      \n      CRITICAL RULES:\n      1. The JSON must NOT contain any comments like \x2f\x2f or \x2f* *\x2f\n      2. Pure JSON only - nothing before the opening \x7b and nothing after the closing \x7d\n      3. Do NOT add any explanations, notes, or text after the JSON ends\n      4. Your response should start with \x7b and end with \x7d - nothing else\n      \n      \x7b\n        \"destinationName\": \"",
   destination,
   lit "\",\n        \"fromName\": \"",
   from_,
   lit "\",\n        \"fromCoords\": ",
   fromCoordsJson,
   lit ",\n        \"destinationCoords\": ",
   destCoordsJson,
   lit ",\n        \"travelAnalysis\": \x7b\n          \"summary\": \"Based on real data, here are the travel options...\",\n          \"distance\": \"",
   distance,
   lit "\",\n          \"options\": ",
   optionsJson,
   lit "\n        \x7d,\n        \"destinationSummary\": \x7b\n          \"bestTimeToVisit\": \"",
   bestTime,
   lit "\",\n          \"hotelSuggestions\": ",
   hotelsJson,
   lit "\n        \x7d,\n        \"thoughtProcess\": \"Comprehensive analysis of the travel requirements and itinerary planning considerations\",\n        \"days\": [\n          \x7b\n            \"day\": 1,\n            \"date\": \"",
   (if 0 < calculatedDays then lit (jsIndex allDates 0) else startDate),
   lit "\",\n            \"title\": \"Travel and Arrival\",\n            \"activities\": [\n              \x7b \"time\": \"Morning\x2fAfternoon\", \"description\": \"Travel from ",
   from_,
   lit " to ",
   destination,
   lit " via [Logical Mode from data]. Estimated time: [Time string].\" \x7d,\n              \x7b \"time\": \"Evening\", \"description\": \"Arrive in ",
   destination,
   lit ", check into hotel (Suggestion: ",
   (if 0 < hotelNames.length then lit (jsIndex hotelNames 0) else lit "a " ++ budget ++ lit " hotel"),
   lit ") and have dinner.\" \x7d\n            ]\n          \x7d,\n          \x7b\n             \"day\": 2,\n             \"date\": \"",
   (if 1 < calculatedDays then lit (jsIndex allDates 1) else lit "[Calculate YYYY-MM-DD for Day 2]"),
   lit "\",\n             \"title\": \"Exploring ",
   destination,
   lit "\",\n             \"activities\": [\n               \x7b \"time\": \"Morning\", \"description\": \"Visit [specific attraction from Top Highlights]. Detailed description of why this fits the ",
   lit (String.intercalate ", " interests),
   lit " interests.\" \x7d,\n               \x7b \"time\": \"Afternoon\", \"description\": \"Explore [another attraction]. Full description of activities and relevance to traveler interests.\" \x7d,\n               \x7b \"time\": \"Evening\", \"description\": \"Dinner at local restaurant and evening activity. Complete details about the experience.\" \x7d\n             ]\n           \x7d\n        ]\n      \x7d\n      \n      IMPORTANT INSTRUCTIONS FOR DAYS ARRAY:\n      - Generate EXACTLY ",
   numberOfDays,
   lit " day objects (Day 1 through Day ",
   (if 0 < calculatedDays then lit (toString calculatedDays) else lit "N"),
   lit ")\n      - Use the exact dates from \x27Specific Dates To Plan For\x27 data for each day\x27s \"date\" field\n      - Each day MUST have 3 activities: Morning, Afternoon, and Evening\n      - NEVER use \"...\" or placeholder text - write full, detailed descriptions for EVERY activity\n      - Each activity description must be 2-3 complete sentences explaining what to do and why it matches the traveler\x27s interests\n      - Incorporate the Top Highlights naturally across different days\n      - Continue generating ALL days until you reach ",
   endDate,
   lit " - do not stop early\n      \n      FINAL REMINDER: Output ONLY the JSON object. Do NOT add any text, explanations, or commentary before \x7b or after \x7d. Your entire response must be valid JSON that can be parsed directly.\n    "]

/-- The prompt string (as characters): the concatenation of its
segments. -/
def buildPrompt (from_ destination startDate endDate budget
    transportMode : List Char) (interests : List String)
    (distance optionsJson : List Char) (highlights : List String)
    (bestTime hotelsJson fromCoordsJson destCoordsJson : List Char)
    (calculatedDays : Nat) (numberOfDays : List Char)
    (allDates : List String) (hotelNames : List String) : List Char :=
  (promptSegments from_ destination startDate endDate budget transportMode
    interests distance optionsJson highlights bestTime hotelsJson
    fromCoordsJson destCoordsJson calculatedDays numberOfDays allDates
    hotelNames).flatten

/-! ## The `POST` route (C4, C5, C6, C7)

The handler is a pure function of the parsed request body, the abstracted
JavaScript builtins (date parsing, `JSON.stringify` on fetched values, the
streaming JSON-delta extraction) and the per-request environment of
external outcomes.  Besides the HTTP response it reports which groups of
external calls were performed and the prompt delivered to the LLM, when
one was. -/

/-- The destructured `request.json()` body. -/
structure ReqBody where
  from_ : String
  destination : String
  startDate : String
  endDate : String
  budget : String
  transportMode : String
  interests : List String

/-- JavaScript builtins used by the route, abstracted as pure functions. -/
structure Builtins where
  parseDate : String → Option CivilDate
  stringifyOptions : List TravelOption → String
  stringifyHotels : List HotelInfo → String
  stringifyCoords : Coords → String
  parseDelta : List Char → Option (List Char)

/-- Outcome of the Groq chat-completions fetch: the fetch threw (outer
catch), responded not-ok (`msg` is the message after the error-body
inspection), or succeeded with a body delivering the given SSE chunks. -/
inductive GroqOutcome where
  | fetchFailed (msg : String)
  | notOk (msg : String)
  | okStream (chunks : List (List Char))

/-- Per-request environment: module configuration (`GROQ_API_KEY`
presence) and all external outcomes. -/
structure PostEnv where
  groqKey : Bool
  geocode : Fetched (Coords × Coords)
  travel : TravelEnv
  dest : DestEnv
  groq : GroqOutcome

/-- An HTTP response body: a JSON/plain-text string, or a streamed
sequence of emitted chunks. -/
inductive RespBody where
  | text (s : String)
  | stream (chunks : List (List Char))
deriving DecidableEq

/-- The parts of a `Response` that the route sets. -/
structure HttpResponse where
  status : Nat
  contentType : String
  body : RespBody
deriving DecidableEq

/-- What one `POST` invocation produced: the response, which groups of
external calls ran (in order), and the prompt sent to the LLM if the Groq
fetch was issued. -/
structure PostResult where
  response : HttpResponse
  effects : List String
  promptSent : Option (List Char)

/-- `destination.toLowerCase().includes('antarctica')`. -/
def hasAntarctica (destination : String) : Bool :=
  decide (("antarctica".data) <:+: (destination.data.map Char.toLower))

/-- `JSON.stringify({ error: '...' })` for the Antarctica guard rail. -/
def antarcticaBody : String :=
  "\x7b\"error\":\"Travel to Antarctica requires a specialized expedition and cannot be planned this way.\"\x7d"

/-- The error-message shaping in the `POST` data-fetching catch. -/
def geoErrorMessage (msg : String) : String :=
  if ("Location not found".data) <:+: msg.data then
    "Could not find location: " ++
      (match (msg.splitOn ": ").get? 1 with
       | some s => s
       | none => "undefined")
  else "Failed to fetch required API data: " ++ msg

/-- `JSON.stringify({ error: msg })` (messages produced by the route need
no escaping). -/
def jsonError (msg : String) : String :=
  "\x7b\"error\":\"" ++ msg ++ "\"\x7d"

/-- The prompt `POST` builds from the request and the fetched data. -/
def postPrompt (b : Builtins) (req : ReqBody) (fc dc : Coords)
    (travelData : TravelData) (destinationInfo : DestInfo)
    (db : Nat × String × List String) : List Char :=
  buildPrompt (lit req.from_) (lit req.destination) (lit req.startDate)
    (lit req.endDate) (lit req.budget) (lit req.transportMode) req.interests
    (lit travelData.distance) (lit (b.stringifyOptions travelData.options))
    destinationInfo.highlights (lit destinationInfo.bestTime)
    (lit (b.stringifyHotels destinationInfo.hotels))
    (lit (b.stringifyCoords fc)) (lit (b.stringifyCoords dc))
    db.1 (lit db.2.1) db.2.2 (destinationInfo.hotels.map (fun h => h.name))

/-- Shallow embedding of the `POST` handler. -/
def POST (b : Builtins) (env : PostEnv) (req : ReqBody) : PostResult :=
  if hasAntarctica req.destination then
    ⟨⟨400, "application/json", .text antarcticaBody⟩, [], none⟩
  else
    match env.geocode with
    | .err msg =>
      ⟨⟨500, "application/json", .text (jsonError (geoErrorMessage msg))⟩,
        ["fetch:geocode"], none⟩
    | .ok (fc, dc) =>
      let travelData := getTravelData env.travel req.from_ req.destination
        (some (fc, dc))
      let destinationInfo := getDestinationInfo env.dest req.destination
        req.budget
      let db := dateBlock (b.parseDate req.startDate) (b.parseDate req.endDate)
      let prompt := postPrompt b req fc dc travelData destinationInfo db
      let effects := ["fetch:geocode", "fetch:travelData",
        "fetch:destinationInfo"]
      if ¬env.groqKey then
        ⟨⟨500, "application/json", .text (jsonError
            "Missing GROQ_API_KEY. Please configure your Groq API key in .env.local.")⟩,
          effects, none⟩
      else
        match env.groq with
        | .fetchFailed _ =>
          ⟨⟨500, "application/json", .text (jsonError
              "Failed to generate itinerary using Groq API. Check your GROQ_API_KEY and network connectivity.")⟩,
            effects ++ ["fetch:groq"], some prompt⟩
        | .notOk msg =>
          ⟨⟨500, "application/json", .text (jsonError msg)⟩,
            effects ++ ["fetch:groq"], some prompt⟩
        | .okStream chunks =>
          ⟨⟨200, "text/plain; charset=utf-8",
              .stream (runStream b.parseDelta chunks).output⟩,
            effects ++ ["fetch:groq"], some prompt⟩

/-- A sequence of invocations of the (module-state-free) handler: each
response depends only on that invocation's environment and body. -/
def runSequence (b : Builtins) (invocations : List (PostEnv × ReqBody)) :
    List PostResult :=
  invocations.map (fun p => POST b p.1 p.2)

/-! ## C9 — the `HotelSuggestions` component (HotelSuggestions.jsx)

The render logic is modelled as a pure function from the `hotels` prop to
either the `No hotel suggestions available.` card or the list of rendered
hotel cards (anchor `href`, displayed name, image source).  Loose JS prop
values are a string or something else (`null`, `undefined`, a number);
`encodeURIComponent` is an abstract parameter. -/

/-- A loosely-typed JS prop value as the component inspects it with
`typeof x === 'string'`. -/
inductive JsVal where
  | str (s : String)
  | other
deriving DecidableEq

/-- One entry of the `hotels` prop. -/
structure JHotel where
  name : JsVal
  address : JsVal
  link : JsVal
  photo : JsVal
deriving DecidableEq

/-- The inline placeholder SVG data URI used when no photo is present
(slashes written with character escapes). -/
def placeholderSvg : String :=
  "data:image\x2fsvg+xml,%3Csvg xmlns=\"http:\x2f\x2fwww.w3.org\x2f2000\x2fsvg\" width=\"96\" height=\"96\"%3E%3Crect width=\"96\" height=\"96\" fill=\"%23e5e7eb\"\x2f%3E%3Ctext x=\"50%25\" y=\"50%25\" text-anchor=\"middle\" dy=\".3em\" fill=\"%239ca3af\" font-size=\"12\"%3EHotel%3C\x2ftext%3E%3C\x2fsvg%3E"

/-- A string that `trim()` sends to the empty string: every character is
whitespace (stated character-wise so it evaluates by reduction). -/
def isBlankStr (s : String) : Bool :=
  s.data.all (fun c => c.isWhitespace)

/-- `typeof v === \x27string\x27 && v.trim() !== \x27\x27`, returning the
string. -/
def jsStrNonBlank : JsVal → Option String
  | .str s => if isBlankStr s then none else some s
  | .other => none

/-- What one rendered hotel card shows. -/
structure RenderedHotel where
  href : String
  displayName : String
  imgSrc : String
deriving DecidableEq

/-- The per-hotel rendering: `hotelName`, `hotelAddress`,
`fallbackSearchUrl`, `finalUrl` and `photoSrc || placeholderSvg` exactly
as computed in the map over `hotels`. -/
def renderOne (enc : String → String) (h : JHotel) : RenderedHotel :=
  let hotelName := (jsStrNonBlank h.name).getD "Hotel"
  let hotelAddress := match h.address with | .str s => s | .other => ""
  let fallbackSearchUrl :=
    "https://www.google.com/search?q=" ++ enc (hotelName ++ " " ++ hotelAddress)
  { href := (jsStrNonBlank h.link).getD fallbackSearchUrl
    displayName := hotelName
    imgSrc := (jsStrNonBlank h.photo).getD placeholderSvg }

/-- What the component renders. -/
inductive RenderOut where
  | noHotels
  | cards (items : List RenderedHotel)
deriving DecidableEq

/-- The component: `!hotels || hotels.length === 0` renders the
`No hotel suggestions available.` card; otherwise one card per hotel. -/
def renderHotelSuggestions (enc : String → String)
    (hotels : Option (List JHotel)) : RenderOut :=
  match hotels with
  | none => .noHotels
  | some [] => .noHotels
  | some l => .cards (l.map (renderOne enc))

/-! Claim-side definitions for C9, following the amended claim's words
(the amendment replaces `non-empty string` by `string that is non-blank,
i.e. non-empty after trimming whitespace`). -/

/-- Amended claim: the displayed name, falling back to `Hotel`. -/
def claimedName (h : JHotel) : String :=
  match h.name with
  | .str s => if ¬isBlankStr s then s else "Hotel"
  | .other => "Hotel"

/-- Amended claim: the address string used in the fallback search URL. -/
def claimedAddress (h : JHotel) : String :=
  match h.address with
  | .str s => s
  | .other => ""

/-- Amended claim: the anchor target — the hotel's own link when it is a
non-blank string, otherwise a Google search URL built from the hotel's
name and address. -/
def claimedHref (enc : String → String) (h : JHotel) : String :=
  match h.link with
  | .str s =>
    if ¬isBlankStr s then s
    else "https://www.google.com/search?q=" ++
      enc (claimedName h ++ " " ++ claimedAddress h)
  | .other =>
    "https://www.google.com/search?q=" ++
      enc (claimedName h ++ " " ++ claimedAddress h)

/-- Amended claim: the image source — the photo when it is a non-blank
string, otherwise the placeholder SVG. -/
def claimedImgSrc (h : JHotel) : String :=
  match h.photo with
  | .str s => if ¬isBlankStr s then s else placeholderSvg
  | .other => placeholderSvg

/-! ## Claim theorems -/

theorem genDates_eq (n : Nat) (s : CivilDate) :
    genDates n s = (List.range n).map (fun i => formatDate (addDays i s)) := by
  unfold genDates
  rw [genDatesD_eq_addDays, List.map_map]
  rfl

theorem genDates_head (n : Nat) (hn : 0 < n) (s : CivilDate) :
    (genDates n s).head? = some (formatDate s) := by
  obtain ⟨m, rfl⟩ : ∃ m, n = m + 1 := ⟨n - 1, by omega⟩
  rfl

theorem calcDays_pos (s e : CivilDate) : 0 < calcDays s e := by
  unfold calcDays
  omega

/-- C2.  For parsed valid dates with `startDate` not after `endDate`, the
date block computes `calculatedDays` equal to the number of calendar days
from start to end inclusive; `allDates` holds exactly `calculatedDays`
strings, namely the formatted consecutive civil dates starting at the
start date (their day numbers are `rdDay s, rdDay s + 1, …`), with the
start date's string first; `numberOfDays` is `"<calculatedDays> days"`;
and the prompt built from these values contains the `numberOfDays` demand
and the JSON array of `allDates` verbatim. -/
theorem c2_date_block_counts (s e : CivilDate)
    (from_ destination startDate endDate budget transportMode : List Char)
    (interests : List String) (distance optionsJson : List Char)
    (highlights : List String)
    (bestTime hotelsJson fromCoordsJson destCoordsJson : List Char)
    (hotelNames : List String)
    (hs : s.Valid) (he : e.Valid) (hle : rdDay s ≤ rdDay e) :
    (dateBlock (some s) (some e)).1 = rdDay e - rdDay s + 1 ∧
    (dateBlock (some s) (some e)).2.2.length = (dateBlock (some s) (some e)).1 ∧
    (dateBlock (some s) (some e)).2.2 =
      (List.range (dateBlock (some s) (some e)).1).map
        (fun i => formatDate (addDays i s)) ∧
    (genDatesD (dateBlock (some s) (some e)).1 s).map rdDay =
      (List.range (dateBlock (some s) (some e)).1).map (fun i => rdDay s + i) ∧
    (dateBlock (some s) (some e)).2.2.head? = some (formatDate s) ∧
    (dateBlock (some s) (some e)).2.1 =
      toString (dateBlock (some s) (some e)).1 ++ " days" ∧
    (lit (dateBlock (some s) (some e)).2.1) <:+:
      buildPrompt from_ destination startDate endDate budget transportMode
        interests distance optionsJson highlights bestTime hotelsJson
        fromCoordsJson destCoordsJson (dateBlock (some s) (some e)).1
        (lit (dateBlock (some s) (some e)).2.1)
        (dateBlock (some s) (some e)).2.2 hotelNames ∧
    (lit (jsonStringArray (dateBlock (some s) (some e)).2.2)) <:+:
      buildPrompt from_ destination startDate endDate budget transportMode
        interests distance optionsJson highlights bestTime hotelsJson
        fromCoordsJson destCoordsJson (dateBlock (some s) (some e)).1
        (lit (dateBlock (some s) (some e)).2.1)
        (dateBlock (some s) (some e)).2.2 hotelNames := by
  have hdb : dateBlock (some s) (some e) =
      (calcDays s e, toString (calcDays s e) ++ " days",
        genDates (calcDays s e) s) := by
    show (if rdDay e < rdDay s then
        ((0 : Nat), "the specified date range", ([] : List String))
      else (calcDays s e, toString (calcDays s e) ++ " days",
        genDates (calcDays s e) s)) =
      (calcDays s e, toString (calcDays s e) ++ " days",
        genDates (calcDays s e) s)
    rw [if_neg (by omega)]
  rw [hdb]
  refine ⟨calcDays_eq s e hle, ?_, ?_, ?_, ?_, rfl, ?_, ?_⟩
  · show (genDates (calcDays s e) s).length = calcDays s e
    unfold genDates
    rw [List.length_map, genDatesD_length]
  · exact genDates_eq (calcDays s e) s
  · exact genDatesD_map_rdDay (calcDays s e) s hs
  · exact genDates_head (calcDays s e) (calcDays_pos s e) s
  · apply List.infix_of_mem_flatten
    show _ ∈ promptSegments _ _ _ _ _ _ _ _ _ _ _ _ _ _ _ _ _ _
    simp [promptSegments]
  · apply List.infix_of_mem_flatten
    show _ ∈ promptSegments _ _ _ _ _ _ _ _ _ _ _ _ _ _ _ _ _ _
    simp [promptSegments, calcDays_pos s e]

/-- Witness for C2 at the leap-year boundary 2024-02-28 … 2024-03-02. -/
theorem c2_date_block_counts_witness :
    (dateBlock (some ⟨2024, 2, 28⟩) (some ⟨2024, 3, 2⟩)).1 =
      rdDay ⟨2024, 3, 2⟩ - rdDay ⟨2024, 2, 28⟩ + 1 ∧
    (dateBlock (some ⟨2024, 2, 28⟩) (some ⟨2024, 3, 2⟩)).2.2.length =
      (dateBlock (some ⟨2024, 2, 28⟩) (some ⟨2024, 3, 2⟩)).1 ∧
    (dateBlock (some ⟨2024, 2, 28⟩) (some ⟨2024, 3, 2⟩)).2.2.head? =
      some (formatDate ⟨2024, 2, 28⟩) ∧
    (dateBlock (some ⟨2024, 2, 28⟩) (some ⟨2024, 3, 2⟩)).2.1 =
      toString (dateBlock (some ⟨2024, 2, 28⟩) (some ⟨2024, 3, 2⟩)).1 ++
        " days" := by
  have h := c2_date_block_counts ⟨2024, 2, 28⟩ ⟨2024, 3, 2⟩
    [] [] [] [] [] [] [] [] [] [] [] [] [] [] []
    (by decide) (by decide) (by decide)
  exact ⟨h.1, h.2.1, h.2.2.2.2.1, h.2.2.2.2.2.1⟩

/-- The prompt `POST` sends when the guard rail passes and the data
fetches succeed (named so the containment facts below can speak about
it). -/
def c4Prompt (b : Builtins) (env : PostEnv) (req : ReqBody)
    (fc dc : Coords) : List Char :=
  postPrompt b req fc dc
    (getTravelData env.travel req.from_ req.destination (some (fc, dc)))
    (getDestinationInfo env.dest req.destination req.budget)
    (dateBlock (b.parseDate req.startDate) (b.parseDate req.endDate))

/-- C4.  For every request that passes the guard rail, whose geocoding
succeeds, and for which the Groq call is issued, the prompt sent to the
LLM contains the aggregated data verbatim: `travelData.distance`, the
serialized `travelData.options`, `destinationInfo.bestTime`, the
serialized `destinationInfo.hotels`, and the serialized origin and
destination coordinates. -/
theorem c4_prompt_contains_data (b : Builtins) (env : PostEnv)
    (req : ReqBody) (fc dc : Coords)
    (hA : hasAntarctica req.destination = false)
    (hg : env.geocode = .ok (fc, dc))
    (hk : env.groqKey = true) :
    (POST b env req).promptSent = some (c4Prompt b env req fc dc) ∧
    (lit (getTravelData env.travel req.from_ req.destination
        (some (fc, dc))).distance) <:+: c4Prompt b env req fc dc ∧
    (lit (b.stringifyOptions (getTravelData env.travel req.from_
        req.destination (some (fc, dc))).options)) <:+:
      c4Prompt b env req fc dc ∧
    (lit (getDestinationInfo env.dest req.destination
        req.budget).bestTime) <:+: c4Prompt b env req fc dc ∧
    (lit (b.stringifyHotels (getDestinationInfo env.dest req.destination
        req.budget).hotels)) <:+: c4Prompt b env req fc dc ∧
    (lit (b.stringifyCoords fc)) <:+: c4Prompt b env req fc dc ∧
    (lit (b.stringifyCoords dc)) <:+: c4Prompt b env req fc dc := by
  constructor
  · unfold POST
    rw [if_neg (by simp [hA]), hg]
    simp only [hk]
    cases env.groq with
    | fetchFailed m => rfl
    | notOk m => rfl
    | okStream chunks => rfl
  · unfold c4Prompt postPrompt buildPrompt
    refine ⟨?_, ?_, ?_, ?_, ?_, ?_⟩ <;>
      (apply List.infix_of_mem_flatten; simp [promptSegments])

/-- Concrete fixtures for the witnesses. -/
def fixedCoordsA : Coords := ⟨10, 20⟩

def fixedCoordsB : Coords := ⟨30, 40⟩

def fixedBuiltins : Builtins :=
  ⟨fun _ => none, fun _ => "[]", fun _ => "[]", fun _ => "\x7b\x7d", fun _ => none⟩

def fixedTravelEnv : TravelEnv :=
  ⟨.err "geo failed", false, fun _ => .err "no key", none, none, 0⟩

def fixedDestEnv : DestEnv := ⟨false, .err "no key", .err "no key", .err "no key"⟩

def okPostEnv : PostEnv :=
  ⟨true, .ok (fixedCoordsA, fixedCoordsB), fixedTravelEnv, fixedDestEnv,
    .okStream []⟩

def plainReq : ReqBody :=
  ⟨"Pune", "Goa", "2024-02-28", "2024-03-02", "luxury", "Car", []⟩

def antarcticaReq : ReqBody :=
  ⟨"Pune", "Antarctica", "2024-01-01", "2024-01-02", "luxury", "Car", []⟩

/-- Witness for C4. -/
theorem c4_prompt_contains_data_witness :
    (POST fixedBuiltins okPostEnv plainReq).promptSent =
      some (c4Prompt fixedBuiltins okPostEnv plainReq fixedCoordsA
        fixedCoordsB) :=
  (c4_prompt_contains_data fixedBuiltins okPostEnv plainReq fixedCoordsA
    fixedCoordsB (by decide) rfl rfl).1

/-- C5.  A destination containing `antarctica` in any letter case yields
the 400 guard-rail response with JSON content type and the fixed error
body, with no external fetch performed and no prompt sent. -/
theorem c5_antarctica_guard (b : Builtins) (env : PostEnv) (req : ReqBody)
    (h : hasAntarctica req.destination = true) :
    POST b env req =
      ⟨⟨400, "application/json", .text antarcticaBody⟩, [], none⟩ := by
  unfold POST
  rw [if_pos (by simp [h])]

/-- Witness for C5. -/
theorem c5_antarctica_guard_witness :
    hasAntarctica "Antarctica" = true ∧
    POST fixedBuiltins okPostEnv antarcticaReq =
      ⟨⟨400, "application/json", .text antarcticaBody⟩, [], none⟩ :=
  ⟨by decide, c5_antarctica_guard fixedBuiltins okPostEnv antarcticaReq
    (by decide)⟩

/-- C6.  The handler keeps no state across invocations: in any sequence
of invocations, the response to an invocation is `POST` of that
invocation's environment and body alone, so two sequences ending in the
same (environment, body) pair end in the same response, regardless of the
preceding requests. -/
theorem c6_stateless_sequence (b : Builtins)
    (pre1 pre2 : List (PostEnv × ReqBody)) (e : PostEnv) (r : ReqBody) :
    (runSequence b (pre1 ++ [(e, r)])).getLast? = some (POST b e r) ∧
    (runSequence b (pre1 ++ [(e, r)])).getLast? =
      (runSequence b (pre2 ++ [(e, r)])).getLast? := by
  have key : ∀ pre : List (PostEnv × ReqBody),
      (runSequence b (pre ++ [(e, r)])).getLast? = some (POST b e r) := by
    intro pre
    unfold runSequence
    rw [List.map_append]
    simp only [List.map_cons, List.map_nil]
    rw [List.getLast?_append_cons]
    rfl
  exact ⟨key pre1, (key pre1).trans (key pre2).symm⟩

/-- C7.  When the upstream Groq call succeeds, `POST` returns the
re-framed model output as a streaming response with content type
`text/plain; charset=utf-8` (status 200), not a buffered text body. -/
theorem c7_streaming_response (b : Builtins) (env : PostEnv) (req : ReqBody)
    (fc dc : Coords) (chunks : List (List Char))
    (hA : hasAntarctica req.destination = false)
    (hg : env.geocode = .ok (fc, dc))
    (hk : env.groqKey = true)
    (hgr : env.groq = .okStream chunks) :
    (POST b env req).response =
      ⟨200, "text/plain; charset=utf-8",
        .stream (runStream b.parseDelta chunks).output⟩ := by
  unfold POST
  simp [hA, hg, hk, hgr]

/-- Witness for C7. -/
theorem c7_streaming_response_witness :
    (POST fixedBuiltins okPostEnv plainReq).response =
      ⟨200, "text/plain; charset=utf-8",
        .stream (runStream fixedBuiltins.parseDelta []).output⟩ :=
  c7_streaming_response fixedBuiltins okPostEnv plainReq fixedCoordsA
    fixedCoordsB [] (by decide) rfl rfl rfl

/-- C8.  `getDestinationInfo` never throws (it is total and returns
`destInfoError` on every internal error, in particular when the bundled
searches reject or the key is missing), and every hotels list it returns
has at most 6 entries, each with a non-empty name different from the
placeholder `Hotel` (the address, rating, photo and link shapes are the
`HotelInfo` field types). -/
theorem c8_getDestinationInfo_safe (env : DestEnv)
    (destination budget : String) :
    ((getDestinationInfo env destination budget).hotels.length ≤ 6) ∧
    ((getDestinationInfo env destination budget).hotels.all
      (fun h => !(h.name == "") && !(h.name == "Hotel")) = true) ∧
    (∀ m, env.bundle = Fetched.err m →
      getDestinationInfo env destination budget = destInfoError) ∧
    (env.hasSerpKey = false →
      getDestinationInfo env destination budget = destInfoError) := by
  have hcases : (getDestinationInfo env destination budget).hotels = [] ∨
      (getDestinationInfo env destination budget).hotels = destHotels env := by
    unfold getDestinationInfo
    split
    · left; rfl
    · split
      · left; rfl
      · split
        · left; rfl
        · right; rfl
  refine ⟨?_, ?_, ?_, ?_⟩
  · rcases hcases with h | h <;> rw [h]
    · simp
    · exact destHotels_len env
  · rcases hcases with h | h <;> rw [h]
    · rfl
    · rw [List.all_eq_true]
      intro h hmem
      have hn := destHotels_names env h hmem
      simp [hn.1, hn.2]
  · intro m hm
    unfold getDestinationInfo
    split
    · rfl
    · rw [hm]
  · intro hk
    unfold getDestinationInfo
    rw [if_pos (by simp [hk])]

/-- Witness for C8 (a populated environment whose bundle search found two
raw hotels, one of which is filtered out as the bare placeholder). -/
theorem c8_getDestinationInfo_safe_witness :
    ((getDestinationInfo ⟨true, .ok (some ["Eiffel Tower"], none,
        some [⟨some "Ritz Paris", none, some "15 Place Vendome", none,
          some "photo.jpg", none, none, some 5, some "https://ritz.example",
          none⟩,
          ⟨none, none, some "nowhere", none, none, none, none, none, none,
            none⟩],
        ⟨some "Best in spring", none, none⟩), .err "maps down",
        .err "simple down"⟩
      "Paris" "luxury").hotels.length ≤ 6) ∧
    ((getDestinationInfo ⟨true, .ok (some ["Eiffel Tower"], none,
        some [⟨some "Ritz Paris", none, some "15 Place Vendome", none,
          some "photo.jpg", none, none, some 5, some "https://ritz.example",
          none⟩,
          ⟨none, none, some "nowhere", none, none, none, none, none, none,
            none⟩],
        ⟨some "Best in spring", none, none⟩), .err "maps down",
        .err "simple down"⟩
      "Paris" "luxury").hotels.all
      (fun h => !(h.name == "") && !(h.name == "Hotel")) = true) :=
  ⟨(c8_getDestinationInfo_safe _ "Paris" "luxury").1,
   (c8_getDestinationInfo_safe _ "Paris" "luxury").2.1⟩

/-- A hotel whose `link` prop is the non-empty, all-whitespace string
`" "`: the claim as stated requires the anchor to use it, the component
falls back to the search URL. -/
def spaceLinkHotel : JHotel :=
  ⟨.str "Grand", .str "Paris", .str " ", .other⟩

/-- Counterexample to C9 as stated: `spaceLinkHotel.link` is the
non-empty string `" "`, yet the rendered anchor href is the Google search
URL, not `" "`. -/
theorem c9_hotel_render_counterexample :
    spaceLinkHotel.link = JsVal.str " " ∧ (" " : String) ≠ "" ∧
    renderHotelSuggestions (fun s => s) (some [spaceLinkHotel]) =
      RenderOut.cards [⟨"https://www.google.com/search?q=Grand Paris",
        "Grand", placeholderSvg⟩] ∧
    (renderOne (fun s => s) spaceLinkHotel).href ≠ " " := by
  refine ⟨rfl, by decide, ?_, by decide⟩
  rfl

/-- C9 (amended: `non-empty string` → `string that is non-empty after
trimming whitespace`).  The component renders the
`No hotel suggestions available.` card exactly when the prop is missing
or empty; otherwise each card's href is the hotel's link when that is a
non-blank string and otherwise the Google search URL built from the
name and address, the displayed name falls back to `Hotel` unless the
name is a non-blank string, and the placeholder SVG is the image source
unless the photo is a non-blank string. -/
theorem c9_hotel_render_amended (enc : String → String) (h : JHotel)
    (t : List JHotel) :
    renderHotelSuggestions enc none = RenderOut.noHotels ∧
    renderHotelSuggestions enc (some []) = RenderOut.noHotels ∧
    renderHotelSuggestions enc (some (h :: t)) =
      RenderOut.cards ((h :: t).map (renderOne enc)) ∧
    renderHotelSuggestions enc (some (h :: t)) ≠ RenderOut.noHotels ∧
    (renderOne enc h).href = claimedHref enc h ∧
    (renderOne enc h).displayName = claimedName h ∧
    (renderOne enc h).imgSrc = claimedImgSrc h := by
  have hname : claimedName h = (jsStrNonBlank h.name).getD "Hotel" := by
    unfold claimedName jsStrNonBlank
    cases h.name with
    | str s =>
      by_cases hs : isBlankStr s = true <;> simp [hs]
    | other => rfl
  have haddr : claimedAddress h =
      (match h.address with | .str s => s | .other => "") := rfl
  refine ⟨rfl, rfl, rfl, by simp [renderHotelSuggestions], ?_, ?_, ?_⟩
  · unfold renderOne claimedHref
    cases h.link with
    | str s =>
      by_cases hs : isBlankStr s = true
      · simp [jsStrNonBlank, hs, hname, haddr]
      · simp [jsStrNonBlank, hs]
    | other => simp [jsStrNonBlank, hname, haddr]
  · unfold renderOne
    simp [hname]
  · unfold renderOne claimedImgSrc
    cases h.photo with
    | str s =>
      by_cases hs : isBlankStr s = true <;> simp [jsStrNonBlank, hs]
    | other => simp [jsStrNonBlank]

/-- Witness for C3 (no pre-fetched coordinates, all services down). -/
theorem c3_getTravelData_shape_witness :
    ((getTravelData fixedTravelEnv "Pune" "Goa" none).options.countP
        (fun o => o.mode == "Car") ≤ 1) ∧
    ((getTravelData fixedTravelEnv "Pune" "Goa" none).options.countP
        (fun o => o.mode == "Flight") ≤ 1) ∧
    ((getTravelData fixedTravelEnv "Pune" "Goa" none).distance = "N/A" ∨
      (∃ r, (fixedTravelEnv.carRoute = some r ∨
          fixedTravelEnv.busRoute = some r) ∧
        (getTravelData fixedTravelEnv "Pune" "Goa" none).distance =
          kmStr r.lengthInMeters) ∨
      (∃ q ab, fixedTravelEnv.serp q = .ok ab ∧
        truthyStr ab.answer =
          some (getTravelData fixedTravelEnv "Pune" "Goa" none).distance) ∨
      (getTravelData fixedTravelEnv "Pune" "Goa" none).distance =
        toString fixedTravelEnv.havKm ++ " km (direct)") :=
  ⟨(c3_getTravelData_shape fixedTravelEnv "Pune" "Goa" none).1,
   (c3_getTravelData_shape fixedTravelEnv "Pune" "Goa" none).2.2.1,
   (c3_getTravelData_shape fixedTravelEnv "Pune" "Goa" none).2.2.2.2⟩
